import Mathlib

/-!
# Verification of the hotel-booking core (search, pricing, availability, validation)

Shallow embedding of the Python source under `app/`:
`app/agents/tools.py` (search orchestrator, pricing engine, availability filter,
booking workflow), `app/agents/guardrails.py` (date/guest validation),
`app/crud/currency.py` (currency code normalization) and `app/crud/booking.py`
(booking/guest persistence helpers).

Python floats are modelled as exact rationals (`ℚ`) and Python `round(x, 2)` as
exact round-half-even to 2 decimals.  Machine dates (`datetime.date`) are
modelled as year/month/day triples with the proleptic-Gregorian ordinal used
for comparison, difference, and day iteration.  Loosely typed dict values are
modelled by `PyVal`, and missing dict keys by `Option` fields.  `date.today()`
is passed explicitly as a `today` parameter.  The haversine distance (the only
transcendental computation) is abstracted as an explicit function parameter;
no claim below depends on it.
-/

/-! ## Python string primitives (ASCII model of `str.lower/upper/isalpha/len/in`) -/

/-- Python `len(s)` (character count). -/
def strLen (s : String) : Nat := s.toList.length

/-- ASCII lowering of one character. -/
def charLower : Char → Char
  | 'A' => 'a'
  | 'B' => 'b'
  | 'C' => 'c'
  | 'D' => 'd'
  | 'E' => 'e'
  | 'F' => 'f'
  | 'G' => 'g'
  | 'H' => 'h'
  | 'I' => 'i'
  | 'J' => 'j'
  | 'K' => 'k'
  | 'L' => 'l'
  | 'M' => 'm'
  | 'N' => 'n'
  | 'O' => 'o'
  | 'P' => 'p'
  | 'Q' => 'q'
  | 'R' => 'r'
  | 'S' => 's'
  | 'T' => 't'
  | 'U' => 'u'
  | 'V' => 'v'
  | 'W' => 'w'
  | 'X' => 'x'
  | 'Y' => 'y'
  | 'Z' => 'z'
  | c => c

/-- ASCII uppering of one character. -/
def charUpper : Char → Char
  | 'a' => 'A'
  | 'b' => 'B'
  | 'c' => 'C'
  | 'd' => 'D'
  | 'e' => 'E'
  | 'f' => 'F'
  | 'g' => 'G'
  | 'h' => 'H'
  | 'i' => 'I'
  | 'j' => 'J'
  | 'k' => 'K'
  | 'l' => 'L'
  | 'm' => 'M'
  | 'n' => 'N'
  | 'o' => 'O'
  | 'p' => 'P'
  | 'q' => 'Q'
  | 'r' => 'R'
  | 's' => 'S'
  | 't' => 'T'
  | 'u' => 'U'
  | 'v' => 'V'
  | 'w' => 'W'
  | 'x' => 'X'
  | 'y' => 'Y'
  | 'z' => 'Z'
  | c => c

/-- Python `s.lower()` (ASCII model). -/
def strLower (s : String) : String := String.mk (s.toList.map charLower)

/-- Python `s.upper()` (ASCII model). -/
def strUpper (s : String) : String := String.mk (s.toList.map charUpper)

/-- Python `s.isalpha()` (ASCII model): nonempty and all letters. -/
def strIsAlpha (s : String) : Bool :=
  !s.toList.isEmpty && s.toList.all (fun c => c.isAlpha)

/-- Does `hay` start with `needle`? -/
def listStarts (needle hay : List Char) : Bool :=
  match needle, hay with
  | [], _ => true
  | _ :: _, [] => false
  | a :: as, b :: bs => a == b && listStarts as bs

/-- Is `needle` a contiguous sublist of `hay`? -/
def listSub (needle : List Char) : List Char → Bool
  | [] => needle.isEmpty
  | c :: rest => listStarts needle (c :: rest) || listSub needle rest

/-- Python `needle in hay` substring test. -/
def strContains (hay needle : String) : Bool :=
  listSub needle.toList hay.toList

/-- Python `s.strip()`: drop leading and trailing whitespace. -/
def pyStrip (s : String) : String :=
  String.mk (((s.toList.dropWhile Char.isWhitespace).reverse.dropWhile
    Char.isWhitespace).reverse)

/-- Python truthiness of an optional string (`None` and `""` are falsy). -/
def strTruthy (o : Option String) : Bool :=
  match o with
  | none => false
  | some s => !(s == "")

/-! ## Loosely typed dict values -/

/-- A dynamically typed value as it arrives from the data store:
`missing` covers both an absent key and SQL `NULL`. -/
inductive PyVal where
  | missing
  | num (q : ℚ)
  | str (s : String)
deriving DecidableEq, Repr

/-- A conservative model of Python `float(string)`: optional sign,
digits, optional fractional part.  Anything else fails. -/
def parseDecimal (s : String) : Option ℚ :=
  let chars := s.toList
  let (sign, rest) :=
    match chars with
    | '-' :: r => ((-1 : ℚ), r)
    | '+' :: r => ((1 : ℚ), r)
    | r => ((1 : ℚ), r)
  let intPart := rest.takeWhile (fun c => c.isDigit)
  let tail := rest.dropWhile (fun c => c.isDigit)
  let digitsVal (l : List Char) : ℚ :=
    l.foldl (fun acc c => acc * 10 + ((c.toNat - '0'.toNat : ℕ) : ℚ)) 0
  match tail with
  | [] =>
    if intPart.isEmpty then none else some (sign * digitsVal intPart)
  | '.' :: fracRest =>
    if fracRest.all (fun c => c.isDigit) ∧ ¬(intPart.isEmpty ∧ fracRest.isEmpty) then
      some (sign * (digitsVal intPart + digitsVal fracRest / (10 : ℚ) ^ fracRest.length))
    else none
  | _ => none

/-- Python `float(value)` where failure (TypeError/ValueError) is `none`. -/
def pyFloat (v : PyVal) : Option ℚ :=
  match v with
  | .num q => some q
  | .str s => parseDecimal s
  | .missing => none

/-- `_to_float` from `tools.py`: coerce to float, defaulting to `0.0` on
TypeError/ValueError. -/
def toFloat (v : PyVal) : ℚ :=
  (pyFloat v).getD 0

/-! ## Rounding (Python `round(x, n)`, banker's rounding on exact rationals) -/

/-- Round-half-even to the nearest integer. -/
def roundHalfEven (q : ℚ) : ℤ :=
  let f : ℤ := ⌊q⌋
  let r : ℚ := q - f
  if r < 1/2 then f
  else if 1/2 < r then f + 1
  else if f % 2 = 0 then f else f + 1

/-- Python `round(q, 2)`. -/
def round2 (q : ℚ) : ℚ := (roundHalfEven (q * 100) : ℚ) / 100

/-- Python `round(q, 3)`. -/
def round3 (q : ℚ) : ℚ := (roundHalfEven (q * 1000) : ℚ) / 1000

/-! ## Dates (`datetime.date`: ISO parse/format, ordinal, day-successor) -/

/-- A calendar date as `datetime.date` stores it. -/
structure Date where
  year : ℤ
  month : ℕ
  day : ℕ
deriving DecidableEq, Repr

def isLeapYear (y : ℤ) : Bool :=
  y % 4 = 0 && (y % 100 ≠ 0 || y % 400 = 0)

def daysInMonth (y : ℤ) (m : ℕ) : ℕ :=
  if m = 2 then (if isLeapYear y then 29 else 28)
  else if m = 4 ∨ m = 6 ∨ m = 9 ∨ m = 11 then 30
  else 31

/-- Validity as enforced by `datetime.date` (year 1..9999). -/
def Date.valid (d : Date) : Bool :=
  1 ≤ d.year && d.year ≤ 9999 && 1 ≤ d.month && d.month ≤ 12 &&
    1 ≤ d.day && d.day ≤ daysInMonth d.year d.month

/-- Days since the civil epoch (proleptic Gregorian, days-from-civil
algorithm).  Strictly monotone in calendar order; differences agree with
`(d2 - d1).days`. -/
def Date.toOrd (d : Date) : ℤ :=
  let y : ℤ := d.year - (if d.month ≤ 2 then 1 else 0)
  let era : ℤ := Int.fdiv y 400
  let yoe : ℤ := y - era * 400
  let mp : ℤ := ((d.month : ℤ) + 9) % 12
  let doy : ℤ := Int.fdiv (153 * mp + 2) 5 + (d.day : ℤ) - 1
  let doe : ℤ := yoe * 365 + Int.fdiv yoe 4 - Int.fdiv yoe 100 + doy
  era * 146097 + doe

/-- `d + timedelta(days=1)`. -/
def Date.next (d : Date) : Date :=
  if d.day < daysInMonth d.year d.month then ⟨d.year, d.month, d.day + 1⟩
  else if d.month < 12 then ⟨d.year, d.month + 1, 1⟩
  else ⟨d.year + 1, 1, 1⟩

/-- Left zero-padding of a numeral. -/
def padNum (width : ℕ) (n : ℕ) : String :=
  let s := toString n
  String.mk (List.replicate (width - s.length) '0') ++ s

/-- `date.isoformat()`: `YYYY-MM-DD`. -/
def Date.iso (d : Date) : String :=
  padNum 4 d.year.toNat ++ "-" ++ padNum 2 d.month ++ "-" ++ padNum 2 d.day

def digitVal (c : Char) : ℕ := c.toNat - '0'.toNat

/-- `date.fromisoformat` on the canonical `YYYY-MM-DD` form; `none` models
the ValueError/TypeError raised on malformed input. -/
def parseIsoDate (s : String) : Option Date :=
  match s.toList with
  | [y1, y2, y3, y4, '-', m1, m2, '-', d1, d2] =>
    if (y1.isDigit && y2.isDigit && y3.isDigit && y4.isDigit &&
        m1.isDigit && m2.isDigit && d1.isDigit && d2.isDigit) then
      let d : Date :=
        ⟨((digitVal y1 * 1000 + digitVal y2 * 100 + digitVal y3 * 10 + digitVal y4 : ℕ) : ℤ),
          digitVal m1 * 10 + digitVal m2,
          digitVal d1 * 10 + digitVal d2⟩
      if d.valid then some d else none
    else none
  | _ => none

/-- `(d2 - d1).days`. -/
def dateDiff (d2 d1 : Date) : ℤ := d2.toOrd - d1.toOrd

def dateLt (a b : Date) : Prop := a.toOrd < b.toOrd
def dateLe (a b : Date) : Prop := a.toOrd ≤ b.toOrd

instance (a b : Date) : Decidable (dateLt a b) := inferInstanceAs (Decidable (_ < _))
instance (a b : Date) : Decidable (dateLe a b) := inferInstanceAs (Decidable (_ ≤ _))

/-! ## Currency Resolver (`app/crud/currency.py`) -/

def DEFAULT_CURRENCY_CODE : String := "USD"

/-- `normalize_currency_code(value)`: falsy input (None / empty) maps to the
default; otherwise strip, uppercase and require a 3-letter alphabetic code. -/
def normalize_currency_code (value : Option String) : String :=
  match value with
  | none => DEFAULT_CURRENCY_CODE
  | some s =>
    if s == "" then DEFAULT_CURRENCY_CODE
    else
      let normalized := strUpper (pyStrip s)
      if strLen normalized == 3 && strIsAlpha normalized then normalized
      else DEFAULT_CURRENCY_CODE

/-! ## Validation Layer (`app/agents/guardrails.py`) -/

/-- `validate_dates(check_in, check_out)`, with `date.today()` passed
explicitly as `today`. -/
def validate_dates (today : Date) (check_in check_out : String) : Option String :=
  match parseIsoDate check_in, parseIsoDate check_out with
  | some ci, some co =>
    if ci.toOrd < today.toOrd then some "Check-in date cannot be in the past."
    else if co.toOrd ≤ ci.toOrd then some "Check-out must be after check-in."
    else if dateDiff co ci > 30 then some "Maximum stay is 30 nights."
    else if ci.toOrd > today.toOrd + 365 then some "Cannot book more than 1 year in advance."
    else none
  | _, _ => some "Invalid date format. Use YYYY-MM-DD."

/-- `validate_guests(count)` (the `isinstance(count, int)` test is vacuous in
the typed model). -/
def validate_guests (count : ℤ) : Option String :=
  if count < 1 then some "Guest count must be at least 1."
  else if count > 20 then some "Maximum 20 guests per booking."
  else none

/-! ## Data-store rows -/

/-- A row of the `rooms` relation (fields are `Option`/`PyVal` where the code
guards against missing keys). -/
structure Room where
  id : String
  property_id : String
  name : String
  type : String
  description : Option String
  price_per_night : PyVal
  max_guests : Option ℤ
  amenities : Option (List String)
  status : String
  currency_code : Option String
deriving DecidableEq, Repr

/-- A row of the `room_guest_tiers` relation. -/
structure GuestTier where
  room_id : String
  min_guests : Option ℤ
  max_guests : Option ℤ
  price_per_night : PyVal
deriving DecidableEq, Repr

/-- A row of the `room_date_pricing` relation. -/
structure DateOverride where
  room_id : String
  date : Date
  price : PyVal
deriving DecidableEq, Repr

/-- A row of the `bookings` relation (only the fields the core reads). -/
structure Booking where
  room_id : String
  property_id : String
  check_in : Date
  check_out : Date
  status : String
  total_price : ℚ
deriving DecidableEq, Repr

/-- A row of the `properties` relation joined with the owning account name. -/
structure PropertyRow where
  id : String
  account_name : String
  city : Option String
  country : Option String
  lat : Option ℚ
  lng : Option ℚ
  description : Option String
deriving DecidableEq, Repr

/-- A row of the `guests` relation. -/
structure GuestRow where
  id : String
  property_id : String
  name : String
  email : Option String
deriving DecidableEq, Repr

/-- The relational store visible to the core. -/
structure Db where
  properties : List PropertyRow
  rooms : List Room
  guest_tiers : List GuestTier
  date_overrides : List DateOverride
  bookings : List Booking
  guests : List GuestRow
  next_id : ℕ
deriving DecidableEq, Repr

/-! ## Pricing Engine (`tools.py`) -/

def TAX_RATE : ℚ := 12/100
def SERVICE_FEE_RATE : ℚ := 4/100

/-- Tier scan inside `_nightly_rate_for_guests`: first tier whose
`[min_guests, max_guests]` (each defaulting to 1) contains `guests` wins. -/
def tierScanDefaulted (base : ℚ) (g : ℤ) : List GuestTier → ℚ
  | [] => base
  | t :: rest =>
    if t.min_guests.getD 1 ≤ g ∧ g ≤ t.max_guests.getD 1 then toFloat t.price_per_night
    else tierScanDefaulted base g rest

/-- `_nightly_rate_for_guests(room, guests, guest_tiers)`. -/
def nightly_rate_for_guests (room : Room) (guests : Option ℤ)
    (guest_tiers : List GuestTier) : ℚ :=
  match guests with
  | none => toFloat room.price_per_night
  | some g => tierScanDefaulted (toFloat room.price_per_night) g guest_tiers

/-- Python dict lookup where the dict was built from an association list
(later duplicate keys win). -/
def dictGet (m : List (String × ℚ)) (k : String) : Option ℚ :=
  ((m.filter (fun p => p.1 == k)).getLast?).map (fun p => p.2)

/-- `override_map` of `_calculate_room_total_price`: keys are the ISO strings
of the override dates, values coerced with `_to_float`. -/
def buildOverrideMap (date_overrides : List DateOverride) : List (String × ℚ) :=
  date_overrides.map (fun o => (o.date.iso, toFloat o.price))

/-- The per-night summation loop
(`for i in range(nights): subtotal += override_map.get(key, rate)`),
shared verbatim by `_calculate_room_total_price` and `calculate_price`. -/
def sumNights (m : List (String × ℚ)) (rate : ℚ) : Date → ℕ → ℚ
  | _, 0 => 0
  | d, n + 1 => ((dictGet m d.iso).getD rate) + sumNights m rate d.next n

/-- `_calculate_room_total_price(room, guests, check_in, check_out,
guest_tiers, date_overrides)`.  The ISO-string arguments are modelled by
their parsed dates (the function's own `date.fromisoformat` calls succeed in
every reachable call context). -/
def calcRoomTotalPrice (room : Room) (guests : Option ℤ) (check_in check_out : Date)
    (guest_tiers : List GuestTier) (date_overrides : List DateOverride) : ℚ :=
  let nights : ℤ := dateDiff check_out check_in
  let nightly_rate := nightly_rate_for_guests room guests guest_tiers
  let override_map := buildOverrideMap date_overrides
  let subtotal := sumNights override_map nightly_rate check_in nights.toNat
  let taxes := round2 (subtotal * TAX_RATE)
  let service_fee := round2 (subtotal * SERVICE_FEE_RATE)
  round2 (subtotal + taxes + service_fee)

/-! ## Availability Filter (`tools.py`) -/

/-- The conflicting-bookings query shared by `_filter_available_rooms`,
`check_availability` and `search_rooms`: non-cancelled bookings on one of the
given rooms whose interval overlaps `[check_in, check_out)`. -/
def conflictingBookings (bookings : List Booking) (room_ids : List String)
    (check_in check_out : Date) : List Booking :=
  bookings.filter (fun b =>
    room_ids.contains b.room_id && !(b.status == "cancelled") &&
      decide (b.check_in.toOrd < check_out.toOrd) &&
      decide (b.check_out.toOrd > check_in.toOrd))

/-- `_filter_available_rooms(client, rooms, check_in, check_out)` (dates
pre-parsed, as the relational store interprets the ISO strings). -/
def filter_available_rooms (bookings : List Booking) (rooms : List Room)
    (check_in check_out : Date) : List Room :=
  if rooms.isEmpty then []
  else
    let room_ids := rooms.map (fun r => r.id)
    let conflict_room_ids :=
      (conflictingBookings bookings room_ids check_in check_out).map (fun b => b.room_id)
    rooms.filter (fun r => !(conflict_room_ids.contains r.id))

/-- Result payload of `check_availability`. -/
structure AvailResult where
  available : Bool
  error : Option String
  conflicts : ℕ
deriving DecidableEq, Repr

/-- `check_availability(client, property_id, room_id, check_in, check_out)`. -/
def check_availability (today : Date) (bookings : List Booking)
    (room_id check_in check_out : String) : AvailResult :=
  match validate_dates today check_in check_out with
  | some e => ⟨false, some e, 0⟩
  | none =>
    match parseIsoDate check_in, parseIsoDate check_out with
    | some ci, some co =>
      let conflicts := conflictingBookings bookings [room_id] ci co
      ⟨conflicts.isEmpty, none, conflicts.length⟩
    | _, _ => ⟨false, none, 0⟩

/-! ## General lemmas about rounding and the pricing loop -/

lemma nightly_rate_nil (room : Room) (g : Option ℤ) :
    nightly_rate_for_guests room g [] = toFloat room.price_per_night := by
  cases g <;> simp [nightly_rate_for_guests, tierScanDefaulted]

lemma sumNights_nil (rate : ℚ) (d : Date) (n : ℕ) :
    sumNights [] rate d n = n * rate := by
  induction n generalizing d with
  | zero => simp [sumNights]
  | succ n ih => simp [sumNights, dictGet, ih]; ring

lemma abs_roundHalfEven_sub (q : ℚ) : |(roundHalfEven q : ℚ) - q| ≤ 1/2 := by
  have h0 : (0:ℚ) ≤ q - ⌊q⌋ := by
    have := Int.floor_le q; linarith
  have h1 : q - ⌊q⌋ < 1 := by
    have := Int.lt_floor_add_one q; linarith
  unfold roundHalfEven
  dsimp only
  split_ifs with ha hb hc <;> (push_cast; rw [abs_le]; constructor <;> linarith)

lemma abs_round2_sub (q : ℚ) : |round2 q - q| ≤ 1/200 := by
  unfold round2
  have h := abs_roundHalfEven_sub (q * 100)
  have heq : ((roundHalfEven (q * 100) : ℚ)) / 100 - q
      = ((roundHalfEven (q * 100) : ℚ) - q * 100) / 100 := by ring
  rw [heq, abs_div]
  rw [show |(100:ℚ)| = 100 by norm_num]
  linarith [abs_nonneg ((roundHalfEven (q * 100) : ℚ) - q * 100)]

/-- `nights × base_price`, the subtotal of a stay with no tiers and no
overrides (spec §4.2 wording). -/
def nightsSubtotal (room : Room) (check_in check_out : Date) : ℚ :=
  ((dateDiff check_out check_in).toNat : ℚ) * toFloat room.price_per_night

lemma calc_no_tiers_eq (room : Room) (guests : Option ℤ) (ci co : Date) :
    calcRoomTotalPrice room guests ci co [] [] =
      round2 (nightsSubtotal room ci co + round2 (nightsSubtotal room ci co * TAX_RATE)
        + round2 (nightsSubtotal room ci co * SERVICE_FEE_RATE)) := by
  simp only [calcRoomTotalPrice, nightsSubtotal, buildOverrideMap, List.map_nil,
    nightly_rate_nil, sumNights_nil]

/-- C1 (amended): for a room with no tiers and no overrides and a valid date
pair, the engine's total is `round(s + round(s·0.12, 2) + round(s·0.04, 2), 2)`
for `s = nights × base_price`; this can differ from the claimed shortcut
`round(s × 1.16, 2)`, but never by more than $0.02. -/
theorem c1_pricing_no_tiers_roundtrip (room : Room) (guests : Option ℤ)
    (ci co : Date) (h : dateLt ci co) :
    calcRoomTotalPrice room guests ci co [] [] =
      round2 (nightsSubtotal room ci co + round2 (nightsSubtotal room ci co * TAX_RATE)
        + round2 (nightsSubtotal room ci co * SERVICE_FEE_RATE)) ∧
    |calcRoomTotalPrice room guests ci co [] []
        - round2 (nightsSubtotal room ci co * (116/100))| ≤ 2/100 := by
  have key := calc_no_tiers_eq room guests ci co
  refine ⟨key, ?_⟩
  rw [key]
  set s := nightsSubtotal room ci co with hs
  have e1 := abs_le.mp (abs_round2_sub (s * TAX_RATE))
  have e2 := abs_le.mp (abs_round2_sub (s * SERVICE_FEE_RATE))
  have e3 := abs_le.mp (abs_round2_sub
    (s + round2 (s * TAX_RATE) + round2 (s * SERVICE_FEE_RATE)))
  have e4 := abs_le.mp (abs_round2_sub (s * (116/100)))
  rw [abs_le]
  unfold TAX_RATE SERVICE_FEE_RATE at *
  constructor <;> linarith

/-- Concrete instance used by the C1 theorems: base price $1.04. -/
def c1Room : Room :=
  ⟨"r1", "p1", "Standard", "room", none, .num (104/100), some 2, none, "active", none⟩

/-- C1 (counterexample): one night at base price $1.04 with no tiers and no
overrides.  The engine (`_calculate_room_total_price`) yields $1.20, while the
claimed `round(nights × base_price × 1.16, 2)` is $1.21. -/
theorem c1_counterexample :
    calcRoomTotalPrice c1Room none ⟨2026,3,1⟩ ⟨2026,3,2⟩ [] [] = 120/100 ∧
    round2 (((1:ℚ)) * (104/100) * (116/100)) = 121/100 ∧
    (120/100 : ℚ) ≠ 121/100 := by
  refine ⟨?_, ?_, by norm_num⟩
  · norm_num [calcRoomTotalPrice, c1Room, nightly_rate_for_guests, tierScanDefaulted,
      buildOverrideMap, sumNights, dictGet, dateDiff, Date.toOrd, round2, roundHalfEven,
      Int.fract, toFloat, pyFloat, TAX_RATE, SERVICE_FEE_RATE]
  · norm_num [round2, roundHalfEven, Int.fract]

/-- C1 witness: the amended theorem applied to the concrete $1.04 room and a
one-night stay. -/
theorem c1_witness :
    dateLt (⟨2026,3,1⟩ : Date) ⟨2026,3,2⟩ ∧
    (calcRoomTotalPrice c1Room none ⟨2026,3,1⟩ ⟨2026,3,2⟩ [] [] =
      round2 (nightsSubtotal c1Room ⟨2026,3,1⟩ ⟨2026,3,2⟩
        + round2 (nightsSubtotal c1Room ⟨2026,3,1⟩ ⟨2026,3,2⟩ * TAX_RATE)
        + round2 (nightsSubtotal c1Room ⟨2026,3,1⟩ ⟨2026,3,2⟩ * SERVICE_FEE_RATE)) ∧
    |calcRoomTotalPrice c1Room none ⟨2026,3,1⟩ ⟨2026,3,2⟩ [] []
        - round2 (nightsSubtotal c1Room ⟨2026,3,1⟩ ⟨2026,3,2⟩ * (116/100))| ≤ 2/100) :=
  ⟨by decide, c1_pricing_no_tiers_roundtrip c1Room none ⟨2026,3,1⟩ ⟨2026,3,2⟩ (by decide)⟩

lemma mem_conflictingBookings (bookings : List Booking) (ids : List String)
    (ci co : Date) (b : Booking) :
    b ∈ conflictingBookings bookings ids ci co ↔
      b ∈ bookings ∧ b.room_id ∈ ids ∧ b.status ≠ "cancelled" ∧
        b.check_in.toOrd < co.toOrd ∧ b.check_out.toOrd > ci.toOrd := by
  simp [conflictingBookings, List.mem_filter, and_assoc]

lemma mem_filter_available (bookings : List Booking) (rooms : List Room)
    (ci co : Date) (room : Room) :
    room ∈ filter_available_rooms bookings rooms ci co ↔
      room ∈ rooms ∧ ¬ ∃ b ∈ bookings, b.room_id = room.id ∧ b.status ≠ "cancelled" ∧
        b.check_in.toOrd < co.toOrd ∧ b.check_out.toOrd > ci.toOrd := by
  unfold filter_available_rooms
  by_cases hemp : rooms.isEmpty = true
  · rw [List.isEmpty_iff] at hemp
    subst hemp
    simp
  · rw [if_neg hemp, List.mem_filter]
    constructor
    · rintro ⟨hmem, hok⟩
      simp only [Bool.not_eq_true'] at hok
      have hok' : room.id ∉ (conflictingBookings bookings
          (rooms.map (fun r => r.id)) ci co).map (fun b => b.room_id) := by
        simpa using hok
      refine ⟨hmem, ?_⟩
      rintro ⟨b, hb, hrid, hstat, hlt, hgt⟩
      exact hok' (List.mem_map.mpr ⟨b, (mem_conflictingBookings _ _ _ _ b).mpr
        ⟨hb, List.mem_map.mpr ⟨room, hmem, hrid.symm⟩, hstat, hlt, hgt⟩, hrid⟩)
    · rintro ⟨hmem, hnc⟩
      refine ⟨hmem, ?_⟩
      simp only [Bool.not_eq_true']
      have hni : room.id ∉ (conflictingBookings bookings
          (rooms.map (fun r => r.id)) ci co).map (fun b => b.room_id) := by
        intro hin
        obtain ⟨b, hbc, hbid⟩ := List.mem_map.mp hin
        obtain ⟨hb, _, hstat, hlt, hgt⟩ := (mem_conflictingBookings _ _ _ _ b).mp hbc
        exact hnc ⟨b, hb, hbid, hstat, hlt, hgt⟩
      simpa using hni

lemma check_availability_valid (today : Date) (bookings : List Booking)
    (room_id check_in check_out : String) (d1 d2 : Date)
    (hv : validate_dates today check_in check_out = none)
    (hp1 : parseIsoDate check_in = some d1) (hp2 : parseIsoDate check_out = some d2) :
    (check_availability today bookings room_id check_in check_out).available = false ↔
      ∃ b ∈ bookings, b.room_id = room_id ∧ b.status ≠ "cancelled" ∧
        b.check_in.toOrd < d2.toOrd ∧ b.check_out.toOrd > d1.toOrd := by
  simp only [check_availability, hv, hp1, hp2]
  rw [Bool.eq_false_iff, ne_eq, List.isEmpty_iff]
  rw [← ne_eq, Ne, List.eq_nil_iff_forall_not_mem]
  push_neg
  constructor
  · rintro ⟨b, hb⟩
    obtain ⟨h1, h2, h3, h4, h5⟩ := (mem_conflictingBookings _ _ _ _ b).mp hb
    simp only [List.mem_singleton] at h2
    exact ⟨b, h1, h2, h3, h4, h5⟩
  · rintro ⟨b, hb, hrid, hstat, hlt, hgt⟩
    exact ⟨b, (mem_conflictingBookings _ _ _ _ b).mpr
      ⟨hb, by simp [hrid], hstat, hlt, hgt⟩⟩

/-- C2 (amended): a room is excluded by `_filter_available_rooms` iff some
booking on it with status other than cancelled satisfies
`check_in < checkOut ∧ check_out > checkIn`; for date pairs accepted by
`validate_dates`, `check_availability` reports `available = false` iff such a
booking exists; bookings that merely touch the query interval at an endpoint
never conflict, and cancelled bookings never block availability. -/
theorem c2_availability_overlap (today : Date) (bookings : List Booking)
    (rooms : List Room) (r : Room) (ci co : Date)
    (room_id check_in check_out : String) (d1 d2 : Date)
    (hv : validate_dates today check_in check_out = none)
    (hp1 : parseIsoDate check_in = some d1) (hp2 : parseIsoDate check_out = some d2) :
    (r ∈ filter_available_rooms bookings rooms ci co ↔
      r ∈ rooms ∧ ¬ ∃ b ∈ bookings, b.room_id = r.id ∧ b.status ≠ "cancelled" ∧
        b.check_in.toOrd < co.toOrd ∧ b.check_out.toOrd > ci.toOrd) ∧
    ((check_availability today bookings room_id check_in check_out).available = false ↔
      ∃ b ∈ bookings, b.room_id = room_id ∧ b.status ≠ "cancelled" ∧
        b.check_in.toOrd < d2.toOrd ∧ b.check_out.toOrd > d1.toOrd) ∧
    ((∀ b ∈ bookings, b.room_id = r.id →
        b.check_out.toOrd ≤ ci.toOrd ∨ b.check_in.toOrd ≥ co.toOrd) →
      r ∈ rooms → r ∈ filter_available_rooms bookings rooms ci co) ∧
    ((∀ b ∈ bookings, b.room_id = r.id → b.status = "cancelled") →
      r ∈ rooms → r ∈ filter_available_rooms bookings rooms ci co) := by
  refine ⟨mem_filter_available bookings rooms ci co r,
    check_availability_valid today bookings room_id check_in check_out d1 d2 hv hp1 hp2,
    ?_, ?_⟩
  · intro htouch hmem
    rw [mem_filter_available]
    refine ⟨hmem, ?_⟩
    rintro ⟨b, hb, hrid, hstat, hlt, hgt⟩
    rcases htouch b hb hrid with h | h <;> omega
  · intro hcanc hmem
    rw [mem_filter_available]
    refine ⟨hmem, ?_⟩
    rintro ⟨b, hb, hrid, hstat, _, _⟩
    exact hstat (hcanc b hb hrid)

/-- C2 (counterexample): for a date pair rejected by `validate_dates`
(check-in before `today`), `check_availability` reports `available = false`
even though no booking exists at all, refuting the claimed iff over every
date pair. -/
theorem c2_counterexample :
    (check_availability ⟨2026,10,12⟩ [] "r1" "2026-10-01" "2026-10-05").available = false ∧
    ¬ ∃ b ∈ ([] : List Booking), b.room_id = "r1" ∧ b.status ≠ "cancelled" ∧
        b.check_in.toOrd < (⟨2026,10,5⟩ : Date).toOrd ∧
        b.check_out.toOrd > (⟨2026,10,1⟩ : Date).toOrd := by
  exact ⟨by decide, by simp⟩

def c2Room : Room :=
  ⟨"r1", "p1", "Alpha", "suite", none, .num 80, some 2, none, "active", none⟩

def c2Booking : Booking := ⟨"r1", "p1", ⟨2026,11,3⟩, ⟨2026,11,8⟩, "confirmed", 100⟩

/-- C2 witness: the amended theorem applied to one concrete room, one
overlapping confirmed booking, and a validated date pair. -/
theorem c2_witness :
    validate_dates ⟨2026,10,12⟩ "2026-11-01" "2026-11-05" = none ∧
    ((c2Room ∈ filter_available_rooms [c2Booking] [c2Room] ⟨2026,11,1⟩ ⟨2026,11,5⟩ ↔
        c2Room ∈ [c2Room] ∧ ¬ ∃ b ∈ [c2Booking], b.room_id = c2Room.id ∧
          b.status ≠ "cancelled" ∧ b.check_in.toOrd < (⟨2026,11,5⟩ : Date).toOrd ∧
          b.check_out.toOrd > (⟨2026,11,1⟩ : Date).toOrd) ∧
      ((check_availability ⟨2026,10,12⟩ [c2Booking] "r1" "2026-11-01"
          "2026-11-05").available = false ↔
        ∃ b ∈ [c2Booking], b.room_id = "r1" ∧ b.status ≠ "cancelled" ∧
          b.check_in.toOrd < (⟨2026,11,5⟩ : Date).toOrd ∧
          b.check_out.toOrd > (⟨2026,11,1⟩ : Date).toOrd) ∧
      ((∀ b ∈ [c2Booking], b.room_id = c2Room.id →
          b.check_out.toOrd ≤ (⟨2026,11,1⟩ : Date).toOrd ∨
          b.check_in.toOrd ≥ (⟨2026,11,5⟩ : Date).toOrd) →
        c2Room ∈ [c2Room] →
        c2Room ∈ filter_available_rooms [c2Booking] [c2Room] ⟨2026,11,1⟩ ⟨2026,11,5⟩) ∧
      ((∀ b ∈ [c2Booking], b.room_id = c2Room.id → b.status = "cancelled") →
        c2Room ∈ [c2Room] →
        c2Room ∈ filter_available_rooms [c2Booking] [c2Room] ⟨2026,11,1⟩ ⟨2026,11,5⟩)) :=
  ⟨by decide, c2_availability_overlap ⟨2026,10,12⟩ [c2Booking] [c2Room] c2Room
    ⟨2026,11,1⟩ ⟨2026,11,5⟩ "r1" "2026-11-01" "2026-11-05" ⟨2026,11,1⟩ ⟨2026,11,5⟩
    (by decide) (by decide) (by decide)⟩

/-- The claim's "3-letter alphabetic code" predicate (spec wording). -/
def isThreeLetterAlpha (s : String) : Bool := strLen s == 3 && strIsAlpha s

lemma isAlpha_charUpper (c : Char) : (charUpper c).isAlpha = c.isAlpha := by
  unfold charUpper
  split <;> rfl

lemma strLen_strUpper (s : String) : strLen (strUpper s) = strLen s := by
  simp [strLen, strUpper]

lemma all_isAlpha_map_charUpper (l : List Char) :
    (l.map charUpper).all (fun c => c.isAlpha) = l.all (fun c => c.isAlpha) := by
  induction l with
  | nil => rfl
  | cons c t ih => simp [List.all_cons, isAlpha_charUpper, ih]

lemma strIsAlpha_strUpper (s : String) : strIsAlpha (strUpper s) = strIsAlpha s := by
  unfold strIsAlpha strUpper
  rw [show (String.mk (s.toList.map charUpper)).toList = s.toList.map charUpper from rfl]
  rw [all_isAlpha_map_charUpper]
  cases s.toList <;> rfl

lemma isThreeLetterAlpha_strUpper (s : String) :
    isThreeLetterAlpha (strUpper s) = isThreeLetterAlpha s := by
  unfold isThreeLetterAlpha
  rw [strLen_strUpper, strIsAlpha_strUpper]

/-- C8 (amended): `normalize_currency_code` maps `None` to `"USD"`; for a
string input it first strips surrounding whitespace, then maps a 3-letter
alphabetic (stripped) code to its uppercase form and everything else to
`"USD"`. -/
theorem c8_normalize_currency :
    normalize_currency_code none = "USD" ∧
    (∀ s, isThreeLetterAlpha (pyStrip s) = true →
      normalize_currency_code (some s) = strUpper (pyStrip s)) ∧
    (∀ s, isThreeLetterAlpha (pyStrip s) = false →
      normalize_currency_code (some s) = "USD") := by
  refine ⟨rfl, ?_, ?_⟩
  · intro s h3
    have hne : ¬(s == "") = true := by
      intro habs
      rw [beq_iff_eq] at habs
      subst habs
      exact absurd h3 (by decide)
    have hcond : (strLen (strUpper (pyStrip s)) == 3
        && strIsAlpha (strUpper (pyStrip s))) = true := by
      rw [show (strLen (strUpper (pyStrip s)) == 3 && strIsAlpha (strUpper (pyStrip s)))
        = isThreeLetterAlpha (strUpper (pyStrip s)) from rfl, isThreeLetterAlpha_strUpper]
      exact h3
    simp [normalize_currency_code, hne, hcond]
  · intro s h3
    by_cases hne : (s == "") = true
    · simp [normalize_currency_code, hne, DEFAULT_CURRENCY_CODE]
    · have hcond : (strLen (strUpper (pyStrip s)) == 3
          && strIsAlpha (strUpper (pyStrip s))) = false := by
        rw [show (strLen (strUpper (pyStrip s)) == 3 && strIsAlpha (strUpper (pyStrip s)))
          = isThreeLetterAlpha (strUpper (pyStrip s)) from rfl, isThreeLetterAlpha_strUpper]
        exact h3
      simp [normalize_currency_code, hne, hcond, DEFAULT_CURRENCY_CODE]

/-- C8 (counterexample): the input `" eur "` is not a 3-letter alphabetic
code, yet `normalize_currency_code` maps it to `"EUR"`, not to the default
`"USD"` — the claim omits the stripping step. -/
theorem c8_counterexample :
    normalize_currency_code (some " eur ") = "EUR" ∧
    isThreeLetterAlpha " eur " = false ∧
    ("EUR" : String) ≠ "USD" :=
  ⟨by decide, by decide, by decide⟩

/-- C8 witness: the amended theorem applied to `"usd"` (alphabetic, kept and
uppercased) and `"us1"` (malformed, defaulted). -/
theorem c8_witness :
    isThreeLetterAlpha (pyStrip "usd") = true ∧
    isThreeLetterAlpha (pyStrip "us1") = false ∧
    normalize_currency_code (some "usd") = strUpper (pyStrip "usd") ∧
    normalize_currency_code (some "us1") = "USD" :=
  ⟨by decide, by decide,
    c8_normalize_currency.2.1 "usd" (by decide),
    c8_normalize_currency.2.2 "us1" (by decide)⟩

/-- C6: `validate_dates` returns `none` exactly when both inputs parse as
ISO dates, check-in is not before today, check-out is after check-in, the
stay is at most 30 nights, and check-in is at most a year ahead; otherwise it
returns the message of the first violated rule in that order; in particular
any parsed pair with check-out ≤ check-in yields a non-null error. -/
theorem c6_validate_dates (today : Date) (check_in check_out : String) :
    (validate_dates today check_in check_out = none ↔
      ∃ ci co, parseIsoDate check_in = some ci ∧ parseIsoDate check_out = some co ∧
        today.toOrd ≤ ci.toOrd ∧ ci.toOrd < co.toOrd ∧ dateDiff co ci ≤ 30 ∧
        ci.toOrd ≤ today.toOrd + 365) ∧
    ((parseIsoDate check_in = none ∨ parseIsoDate check_out = none) →
      validate_dates today check_in check_out = some "Invalid date format. Use YYYY-MM-DD.") ∧
    (∀ ci co, parseIsoDate check_in = some ci → parseIsoDate check_out = some co →
      (ci.toOrd < today.toOrd →
        validate_dates today check_in check_out = some "Check-in date cannot be in the past.") ∧
      (today.toOrd ≤ ci.toOrd → co.toOrd ≤ ci.toOrd →
        validate_dates today check_in check_out = some "Check-out must be after check-in.") ∧
      (today.toOrd ≤ ci.toOrd → ci.toOrd < co.toOrd → dateDiff co ci > 30 →
        validate_dates today check_in check_out = some "Maximum stay is 30 nights.") ∧
      (today.toOrd ≤ ci.toOrd → ci.toOrd < co.toOrd → dateDiff co ci ≤ 30 →
        ci.toOrd > today.toOrd + 365 →
        validate_dates today check_in check_out
          = some "Cannot book more than 1 year in advance.") ∧
      (co.toOrd ≤ ci.toOrd → validate_dates today check_in check_out ≠ none)) := by
  unfold validate_dates
  cases h1 : parseIsoDate check_in with
  | none =>
    refine ⟨?_, fun _ => rfl, ?_⟩
    · simp
    · intro ci co hci
      exact absurd hci (by simp)
  | some ci =>
    cases h2 : parseIsoDate check_out with
    | none =>
      refine ⟨?_, fun _ => rfl, ?_⟩
      · constructor
        · intro habs
          exact absurd habs (by simp)
        · rintro ⟨a, b, ha, hb, _⟩
          exact absurd hb (by simp)
      · intro a b ha hb
        exact absurd hb (by simp)
    | some co =>
      dsimp only
      refine ⟨?_, ?_, ?_⟩
      · constructor
        · intro hnone
          split_ifs at hnone with p1 p2 p3 p4
          refine ⟨ci, co, rfl, rfl, by omega, by omega, ?_, by omega⟩
          simp only [dateDiff, gt_iff_lt, not_lt] at p3 ⊢
          omega
        · rintro ⟨a, b, ha, hb, hc1, hc2, hc3, hc4⟩
          obtain rfl : a = ci := by
            injection ha with h
            exact h.symm
          obtain rfl : b = co := by
            injection hb with h
            exact h.symm
          simp only [dateDiff] at hc3
          rw [if_neg (by omega), if_neg (by omega),
            if_neg (by simp only [dateDiff, gt_iff_lt, not_lt]; omega), if_neg (by omega)]
      · rintro (h | h) <;> exact absurd h (by simp)
      · intro a b ha hb
        obtain rfl : a = ci := by
          injection ha with h
          exact h.symm
        obtain rfl : b = co := by
          injection hb with h
          exact h.symm
        refine ⟨?_, ?_, ?_, ?_, ?_⟩
        · intro hlt
          rw [if_pos hlt]
        · intro hge hle
          rw [if_neg (by omega), if_pos hle]
        · intro hge hlt hd
          rw [if_neg (by omega), if_neg (by omega), if_pos hd]
        · intro hge hlt hd hfar
          rw [if_neg (by omega), if_neg (by omega),
            if_neg (by simp only [dateDiff, gt_iff_lt, not_lt] at hd ⊢; omega), if_pos hfar]
        · intro hle
          split_ifs <;> simp

/-- C6 witness: the theorem applied to a reversed date pair (first-rule
message is the checkout rule) and to an unparseable check-in. -/
theorem c6_witness :
    validate_dates ⟨2026,10,12⟩ "2026-11-05" "2026-11-01"
      = some "Check-out must be after check-in." ∧
    validate_dates ⟨2026,10,12⟩ "not-a-date" "2026-11-01"
      = some "Invalid date format. Use YYYY-MM-DD." :=
  ⟨((c6_validate_dates ⟨2026,10,12⟩ "2026-11-05" "2026-11-01").2.2 ⟨2026,11,5⟩ ⟨2026,11,1⟩
      (by decide) (by decide)).2.1 (by decide) (by decide),
    (c6_validate_dates ⟨2026,10,12⟩ "not-a-date" "2026-11-01").2.1 (Or.inl (by decide))⟩

/-! ## Hotel Search Orchestrator (`search_hotels` in `tools.py`) -/

def PET_FRIENDLY_KEYWORDS : List String :=
  ["pet friendly", "pets allowed", "pets welcome", "pet-friendly"]

/-- `_contains_ci(value, term)`: `False` for `None`, else substring test on
the lowered string. -/
def contains_ci (value : Option String) (term : String) : Bool :=
  match value with
  | none => false
  | some s => strContains (strLower s) term

/-- `_property_name_from_row`: the owning account's display name, stripped. -/
def property_name_from_row (row : PropertyRow) : String := pyStrip row.account_name

/-- `_room_is_pet_friendly(amenities)`. -/
def room_is_pet_friendly (amenities : Option (List String)) : Bool :=
  match amenities with
  | none => false
  | some l =>
    if l.isEmpty then false
    else l.any (fun amenity => PET_FRIENDLY_KEYWORDS.any
      (fun keyword => strContains (strLower amenity) keyword))

/-- Arguments of `search_hotels` (tool-call defaults mirrored: empty query,
radius 20.0, everything else absent). -/
structure SearchArgs where
  query : String
  property_name : Option String
  city : Option String
  country : Option String
  room_name : Option String
  lat : Option ℚ
  lng : Option ℚ
  radius_km : ℚ
  check_in : Option String
  check_out : Option String
  guests : Option ℤ
  pet_friendly : Option Bool
  budget_per_night_max : Option ℚ
  budget_total_max : Option ℚ
deriving DecidableEq, Repr

def SearchArgs.default : SearchArgs :=
  ⟨"", none, none, none, none, none, none, 20, none, none, none, none, none, none⟩

/-- A property surviving stage 1, as stored in the `properties` dict. -/
structure PropEntry where
  property_id : String
  property_name : String
  city : Option String
  country : Option String
  lat : Option ℚ
  lng : Option ℚ
  description : Option String
  distance_km : Option ℚ
deriving DecidableEq, Repr

/-- Python dict lookup on the `properties` dict (later duplicate ids win). -/
def propLookup (props : List PropEntry) (pid : String) : Option PropEntry :=
  (props.filter (fun p => p.property_id == pid)).getLast?

/-- Stage 1: property name/city/country substring filters and the geo filter
(`dist` abstracts `_haversine_distance_km`). -/
def propertyStage (dist : ℚ → ℚ → ℚ → ℚ → ℚ)
    (nPropertyName nCity nCountry : String) (lat lng : Option ℚ) (radius_km : ℚ)
    (props : List PropertyRow) : List PropEntry :=
  props.filterMap (fun row =>
    let prop_name := property_name_from_row row
    if !(nPropertyName == "") && !(contains_ci (some prop_name) nPropertyName) then none
    else if !(nCity == "") && !(contains_ci row.city nCity) then none
    else if !(nCountry == "") && !(contains_ci row.country nCountry) then none
    else
      match lat, lng with
      | some qlat, some qlng =>
        match row.lat, row.lng with
        | some plat, some plng =>
          let distance_km := dist qlat qlng plat plng
          if distance_km > radius_km then none
          else some ⟨row.id, prop_name, row.city, row.country, row.lat, row.lng,
            row.description, some (round3 distance_km)⟩
        | _, _ => none
      | _, _ => some ⟨row.id, prop_name, row.city, row.country, row.lat, row.lng,
          row.description, none⟩)

/-- Stage 3a: fetch `active` rooms of surviving properties. -/
def roomsFetch (db_rooms : List Room) (props : List PropEntry) : List Room :=
  db_rooms.filter (fun r =>
    (props.map (fun p => p.property_id)).contains r.property_id && r.status == "active")

/-- Stage 3b: `room_name` substring filter on name OR type. -/
def roomNameStage (nRoomName : String) (rooms : List Room) : List Room :=
  if nRoomName == "" then rooms
  else rooms.filter (fun r =>
    contains_ci (some r.name) nRoomName || contains_ci (some r.type) nRoomName)

/-- Stage 3c: guest-capacity filter of `search_hotels`
(`int(room.get("max_guests", 0)) >= guests`). -/
def guestsStageHotels (guests : Option ℤ) (rooms : List Room) : List Room :=
  match guests with
  | none => rooms
  | some g => rooms.filter (fun r => r.max_guests.getD 0 ≥ g)

/-- Stage 3d: pet-friendly filter (only when `pet_friendly` is truthy). -/
def petStage (pet_friendly : Option Bool) (rooms : List Room) : List Room :=
  if pet_friendly = some true then
    rooms.filter (fun r => room_is_pet_friendly r.amenities)
  else rooms

/-- Stage 3e: per-night budget filter. -/
def budgetNightStage (budget : Option ℚ) (rooms : List Room) : List Room :=
  match budget with
  | none => rooms
  | some v => rooms.filter (fun r => toFloat r.price_per_night ≤ v)

/-- The guest tiers of one room, in store order. -/
def tiersForRoom (tiers : List GuestTier) (rid : String) : List GuestTier :=
  tiers.filter (fun t => t.room_id == rid)

/-- The date overrides of one room restricted to `[check_in, check_out)`,
in store order. -/
def overridesForRoomRange (ovs : List DateOverride) (rid : String)
    (check_in check_out : Date) : List DateOverride :=
  ovs.filter (fun o => o.room_id == rid &&
    decide (check_in.toOrd ≤ o.date.toOrd) && decide (o.date.toOrd < check_out.toOrd))

/-- Stage 5: total-budget filter; also returns `room_total_map` (the totals
of every room that reached this stage). -/
def budgetTotalStage (tiers : List GuestTier) (ovs : List DateOverride)
    (guests : Option ℤ) (check_in check_out : Date) (budget_total_max : ℚ)
    (rooms : List Room) : List Room × List (String × ℚ) :=
  if rooms.isEmpty then (rooms, [])
  else
    let pairs := rooms.map (fun r =>
      (r, calcRoomTotalPrice r guests check_in check_out
            (tiersForRoom tiers r.id) (overridesForRoomRange ovs r.id check_in check_out)))
    ((pairs.filter (fun p => p.2 ≤ budget_total_max)).map (fun p => p.1),
      pairs.map (fun p => (p.1.id, p.2)))

/-- Stage 6: free-text query filter (room fields OR owning-property fields). -/
def queryStage (props : List PropEntry) (nQuery : String) (rooms : List Room) : List Room :=
  if nQuery == "" then rooms
  else rooms.filter (fun room =>
    match propLookup props room.property_id with
    | none => false
    | some prop =>
      (contains_ci (some room.name) nQuery || contains_ci (some room.type) nQuery ||
        contains_ci room.description nQuery ||
        (room.amenities.getD []).any (fun amenity => contains_ci (some amenity) nQuery)) ||
      (contains_ci (some prop.property_name) nQuery || contains_ci prop.description nQuery ||
        contains_ci prop.city nQuery || contains_ci prop.country nQuery))

/-- First-occurrence deduplication (Python dict key insertion order). -/
def dedupFirst : List String → List String
  | [] => []
  | x :: xs => x :: (dedupFirst xs).filter (fun y => !(y == x))

/-- Insert into a sorted list, before the first element `x` is `le`-below;
stable for Python-style key sorting. -/
def insertSorted {α : Type} (le : α → α → Bool) (x : α) : List α → List α
  | [] => [x]
  | y :: ys => if le x y then x :: y :: ys else y :: insertSorted le x ys

/-- Stable insertion sort, modelling Python `sorted` / `list.sort`. -/
def sortByLe {α : Type} (le : α → α → Bool) : List α → List α
  | [] => []
  | x :: xs => insertSorted le x (sortByLe le xs)

/-- A `matching_rooms` entry of the result payload. -/
structure RoomEntry where
  id : String
  property_id : String
  name : String
  type : String
  description : String
  price_per_night : ℚ
  max_guests : ℤ
  amenities : List String
  estimated_total_price : Option ℚ
deriving DecidableEq, Repr

def mkRoomEntry (total_map : List (String × ℚ)) (r : Room) : RoomEntry :=
  ⟨r.id, r.property_id, r.name, r.type, r.description.getD "",
    toFloat r.price_per_night, r.max_guests.getD 0, r.amenities.getD [],
    dictGet total_map r.id⟩

/-- A hotel of the result payload. -/
structure Hotel where
  property_id : String
  property_name : String
  city : Option String
  country : Option String
  lat : Option ℚ
  lng : Option ℚ
  distance_km : Option ℚ
  min_price_per_night : ℚ
  available_rooms_count : ℕ
  pet_friendly_option : Bool
  matching_rooms : List RoomEntry
deriving DecidableEq, Repr

/-- Python `min` over a nonempty list (`0` on the unreachable empty list). -/
def minQ : List ℚ → ℚ
  | [] => 0
  | x :: xs => xs.foldl min x

/-- The group of surviving rooms of one property (`rooms_by_property[pid]`). -/
def roomsOfPid (props : List PropEntry) (rooms : List Room) (pid : String) : List Room :=
  rooms.filter (fun r => r.property_id == pid && (propLookup props r.property_id).isSome)

/-- Stage 7: group surviving rooms by property and build hotel entries. -/
def buildHotels (props : List PropEntry) (total_map : List (String × ℚ))
    (rooms : List Room) : List Hotel :=
  let pids := dedupFirst ((rooms.filter
    (fun r => (propLookup props r.property_id).isSome)).map (fun r => r.property_id))
  pids.filterMap (fun pid =>
    match propLookup props pid with
    | none => none
    | some prop =>
      let property_rooms := roomsOfPid props rooms pid
      let sorted_rooms := sortByLe
        (fun r1 r2 => decide (toFloat r1.price_per_night ≤ toFloat r2.price_per_night))
        property_rooms
      let matching_rooms := sorted_rooms.map (mkRoomEntry total_map)
      let min_price_per_night := minQ (property_rooms.map (fun r => toFloat r.price_per_night))
      some ⟨prop.property_id, prop.property_name, prop.city, prop.country, prop.lat,
        prop.lng, prop.distance_km, round2 min_price_per_night, matching_rooms.length,
        property_rooms.any (fun r => room_is_pet_friendly r.amenities), matching_rooms⟩)

/-- Code-point lexicographic order on strings (Python `str` comparison). -/
def listCharLe : List Char → List Char → Bool
  | [], _ => true
  | _ :: _, [] => false
  | a :: as, b :: bs =>
    if a.toNat < b.toNat then true
    else if b.toNat < a.toNat then false
    else listCharLe as bs

def strLeB (s1 s2 : String) : Bool := listCharLe s1.toList s2.toList

/-- Stage 8 sort key comparison: `(distance_km or +inf, name.lower())` when a
coordinate filter was used, else `name.lower()` alone. -/
def hotelLe (coord : Bool) (h1 h2 : Hotel) : Bool :=
  if coord then
    match h1.distance_km, h2.distance_km with
    | none, none => strLeB (strLower h1.property_name) (strLower h2.property_name)
    | none, some _ => false
    | some _, none => true
    | some a, some b =>
      decide (a < b) ||
        (a == b && strLeB (strLower h1.property_name) (strLower h2.property_name))
  else strLeB (strLower h1.property_name) (strLower h2.property_name)

/-- Result payload of `search_hotels` (the `applied_filters` echo carries no
information beyond the arguments and is omitted). -/
structure SearchPayload where
  hotels : List Hotel
  count_hotels : ℕ
  count_rooms : ℕ
  message : String
deriving DecidableEq, Repr

/-- A structured result: `{error: msg}` or the success payload. -/
inductive SearchResult where
  | error (msg : String)
  | ok (payload : SearchPayload)
deriving DecidableEq, Repr

/-- Normalized (stripped, lowered) text filters of `search_hotels`. -/
def SearchArgs.nQuery (a : SearchArgs) : String := strLower (pyStrip a.query)

def SearchArgs.nPropertyName (a : SearchArgs) : String :=
  strLower (pyStrip (a.property_name.getD ""))

def SearchArgs.nCity (a : SearchArgs) : String := strLower (pyStrip (a.city.getD ""))

def SearchArgs.nCountry (a : SearchArgs) : String :=
  strLower (pyStrip (a.country.getD ""))

def SearchArgs.nRoomName (a : SearchArgs) : String :=
  strLower (pyStrip (a.room_name.getD ""))

/-- The fail-fast validation prefix of `search_hotels`: the first error
returned, `none` when validation passes. -/
def search_hotels_validate (today : Date) (a : SearchArgs) : Option String :=
  if a.lat.isSome != a.lng.isSome then
    some "Both lat and lng must be provided together."
  else if a.radius_km ≤ 0 then
    some "radius_km must be greater than 0."
  else if !(!(a.nQuery == "") || !(a.nPropertyName == "") || !(a.nCity == "")
      || !(a.nCountry == "") || !(a.nRoomName == "") || (a.lat.isSome && a.lng.isSome)) then
    some "At least one search criterion is required: query, property_name, city, country, room_name, or lat/lng."
  else if (strTruthy a.check_in && !(strTruthy a.check_out))
      || (strTruthy a.check_out && !(strTruthy a.check_in)) then
    some "Both check_in and check_out must be provided together."
  else
    match (if strTruthy a.check_in && strTruthy a.check_out then
        validate_dates today (a.check_in.getD "") (a.check_out.getD "") else none) with
    | some e => some e
    | none =>
      match (match a.guests with | none => none | some g => validate_guests g) with
      | some e => some e
      | none =>
        if (match a.budget_per_night_max with | some b => decide (b ≤ 0) | none => false) then
          some "budget_per_night_max must be greater than 0."
        else if (match a.budget_total_max with | some b => decide (b ≤ 0) | none => false) then
          some "budget_total_max must be greater than 0."
        else if a.budget_total_max.isSome
            && !(strTruthy a.check_in && strTruthy a.check_out) then
          some "budget_total_max requires both check_in and check_out dates."
        else none

/-- The validated date pair, parsed (present exactly when both dates were
supplied; parsing succeeds in every reachable context). -/
def SearchArgs.parsedDates (a : SearchArgs) : Option (Date × Date) :=
  if strTruthy a.check_in && strTruthy a.check_out then
    match parseIsoDate (a.check_in.getD ""), parseIsoDate (a.check_out.getD "") with
    | some ci, some co => some (ci, co)
    | _, _ => none
  else none

/-- Stages 3–5 of the room pipeline (room_name, guest capacity, pet filter,
per-night budget, availability, total budget).  Returns the surviving rooms
and `room_total_map`. -/
def roomsAfterStages (db : Db) (a : SearchArgs) (props : List PropEntry) :
    List Room × List (String × ℚ) :=
  let rooms1 := roomNameStage a.nRoomName (roomsFetch db.rooms props)
  let rooms2 := guestsStageHotels a.guests rooms1
  let rooms3 := petStage a.pet_friendly rooms2
  let rooms4 := budgetNightStage a.budget_per_night_max rooms3
  let rooms5 := match a.parsedDates with
    | some (ci, co) => filter_available_rooms db.bookings rooms4 ci co
    | none => rooms4
  match a.parsedDates, a.budget_total_max with
  | some (ci, co), some v =>
    budgetTotalStage db.guest_tiers db.date_overrides a.guests ci co v rooms5
  | _, _ => (rooms5, [])

/-- Stages 2–9 of `search_hotels` (everything after validation). -/
def search_hotels_pipeline (dist : ℚ → ℚ → ℚ → ℚ → ℚ) (db : Db)
    (a : SearchArgs) : SearchPayload :=
  let props := propertyStage dist a.nPropertyName a.nCity a.nCountry
    a.lat a.lng a.radius_km db.properties
  if props.isEmpty then ⟨[], 0, 0, "No hotels matched the provided filters."⟩
  else
    let stages := roomsAfterStages db a props
    let hotels := sortByLe (hotelLe (a.lat.isSome && a.lng.isSome))
      (buildHotels props stages.2 (queryStage props a.nQuery stages.1))
    let count_hotels := hotels.length
    let count_rooms := (hotels.map (fun h => h.matching_rooms.length)).sum
    ⟨hotels, count_hotels, count_rooms,
      if count_hotels > 0 then
        "Found " ++ toString count_hotels ++ " hotel(s) with "
          ++ toString count_rooms ++ " matching room(s)."
      else "No hotels matched the provided filters."⟩

/-- `search_hotels(...)`: fail-fast validation, then the filter pipeline.
`dist` abstracts the haversine computation; `today` is `date.today()`. -/
def search_hotels (today : Date) (dist : ℚ → ℚ → ℚ → ℚ → ℚ) (db : Db)
    (a : SearchArgs) : SearchResult :=
  match search_hotels_validate today a with
  | some e => .error e
  | none => .ok (search_hotels_pipeline dist db a)

/-! ## Lemmas about sorting, min and grouping -/

lemma perm_insertSorted {α : Type} (le : α → α → Bool) (x : α) (l : List α) :
    (insertSorted le x l).Perm (x :: l) := by
  induction l with
  | nil => exact List.Perm.refl _
  | cons y ys ih =>
    unfold insertSorted
    split_ifs with h
    · exact List.Perm.refl _
    · exact (ih.cons y).trans (List.Perm.swap x y ys)

lemma perm_sortByLe {α : Type} (le : α → α → Bool) (l : List α) :
    (sortByLe le l).Perm l := by
  induction l with
  | nil => exact List.Perm.refl _
  | cons x xs ih =>
    exact (perm_insertSorted le x (sortByLe le xs)).trans (ih.cons x)

lemma foldl_min_le_init (l : List ℚ) : ∀ b : ℚ, l.foldl min b ≤ b := by
  induction l with
  | nil => intro b; exact le_refl b
  | cons y ys ih =>
    intro b
    exact le_trans (ih (min b y)) (min_le_left b y)

lemma foldl_min_le_mem (l : List ℚ) : ∀ b : ℚ, ∀ a ∈ l, l.foldl min b ≤ a := by
  induction l with
  | nil => intro b a ha; cases ha
  | cons y ys ih =>
    intro b a ha
    rcases List.mem_cons.mp ha with h | h
    · subst h
      exact le_trans (foldl_min_le_init ys (min b a)) (min_le_right b a)
    · exact ih (min b y) a h

lemma foldl_min_mem (l : List ℚ) : ∀ b : ℚ, l.foldl min b = b ∨ l.foldl min b ∈ l := by
  induction l with
  | nil => intro b; exact Or.inl rfl
  | cons y ys ih =>
    intro b
    rcases ih (min b y) with h | h
    · rcases min_choice b y with hm | hm
      · exact Or.inl (by rw [List.foldl_cons, h, hm])
      · refine Or.inr ?_
        rw [List.foldl_cons, h, hm]
        exact List.mem_cons_self y ys
    · exact Or.inr (List.mem_cons_of_mem y (by rw [List.foldl_cons]; exact h))

lemma minQ_mem {l : List ℚ} (hne : l ≠ []) : minQ l ∈ l := by
  cases l with
  | nil => exact absurd rfl hne
  | cons x xs =>
    rcases foldl_min_mem xs x with h | h
    · rw [show minQ (x :: xs) = xs.foldl min x from rfl, h]
      exact List.mem_cons_self x xs
    · exact List.mem_cons_of_mem x h

lemma minQ_le {l : List ℚ} : ∀ a ∈ l, minQ l ≤ a := by
  cases l with
  | nil => intro a ha; cases ha
  | cons x xs =>
    intro a ha
    rcases List.mem_cons.mp ha with h | h
    · subst h
      exact foldl_min_le_init xs a
    · exact foldl_min_le_mem xs x a h

lemma minQ_perm {l1 l2 : List ℚ} (h : l1.Perm l2) (hne : l1 ≠ []) :
    minQ l1 = minQ l2 := by
  have hne2 : l2 ≠ [] := by
    intro habs
    subst habs
    exact hne h.eq_nil
  exact le_antisymm (minQ_le _ (h.mem_iff.mpr (minQ_mem hne2)))
    (minQ_le _ (h.mem_iff.mp (minQ_mem hne)))

lemma mem_dedupFirst : ∀ (l : List String) (x : String), x ∈ dedupFirst l → x ∈ l := by
  intro l
  induction l with
  | nil =>
    intro x h
    cases h
  | cons y ys ih =>
    intro x h
    rcases List.mem_cons.mp h with h | h
    · simp [h]
    · exact List.mem_cons_of_mem y (ih x (List.mem_of_mem_filter h))

lemma mem_buildHotels (props : List PropEntry) (tm : List (String × ℚ))
    (rooms : List Room) (h : Hotel) (hmem : h ∈ buildHotels props tm rooms) :
    ∃ pid prop, propLookup props pid = some prop ∧
      roomsOfPid props rooms pid ≠ [] ∧
      h = ⟨prop.property_id, prop.property_name, prop.city, prop.country, prop.lat,
        prop.lng, prop.distance_km,
        round2 (minQ ((roomsOfPid props rooms pid).map (fun r => toFloat r.price_per_night))),
        ((sortByLe (fun r1 r2 =>
            decide (toFloat r1.price_per_night ≤ toFloat r2.price_per_night))
          (roomsOfPid props rooms pid)).map (mkRoomEntry tm)).length,
        (roomsOfPid props rooms pid).any (fun r => room_is_pet_friendly r.amenities),
        (sortByLe (fun r1 r2 =>
            decide (toFloat r1.price_per_night ≤ toFloat r2.price_per_night))
          (roomsOfPid props rooms pid)).map (mkRoomEntry tm)⟩ := by
  unfold buildHotels at hmem
  dsimp only at hmem
  obtain ⟨pid, hpid, hbuild⟩ := List.mem_filterMap.mp hmem
  cases hlk : propLookup props pid with
  | none =>
    rw [hlk] at hbuild
    dsimp only at hbuild
    cases hbuild
  | some prop =>
    rw [hlk] at hbuild
    dsimp only at hbuild
    refine ⟨pid, prop, hlk, ?_, ?_⟩
    · obtain ⟨r, hr, hrid⟩ := List.mem_map.mp (mem_dedupFirst _ _ hpid)
      intro habs
      have hrin : r ∈ roomsOfPid props rooms pid := by
        unfold roomsOfPid
        rw [List.mem_filter]
        obtain ⟨hr1, hr2⟩ := List.mem_filter.mp hr
        refine ⟨hr1, ?_⟩
        rw [hrid] at hr2 ⊢
        simp [hr2]
      rw [habs] at hrin
      cases hrin
    · injection hbuild with hb
      exact hb.symm

lemma hotel_min_price_of_mem (props : List PropEntry) (tm : List (String × ℚ))
    (rooms : List Room) (h : Hotel) (hmem : h ∈ buildHotels props tm rooms) :
    h.matching_rooms ≠ [] ∧
    h.min_price_per_night
      = round2 (minQ (h.matching_rooms.map (fun e => e.price_per_night))) := by
  obtain ⟨pid, prop, hlk, hne, rfl⟩ := mem_buildHotels props tm rooms h hmem
  have hperm := perm_sortByLe (fun r1 r2 : Room =>
    decide (toFloat r1.price_per_night ≤ toFloat r2.price_per_night))
    (roomsOfPid props rooms pid)
  have hsne : sortByLe (fun r1 r2 : Room =>
      decide (toFloat r1.price_per_night ≤ toFloat r2.price_per_night))
      (roomsOfPid props rooms pid) ≠ [] := by
    intro habs
    rw [habs] at hperm
    exact hne hperm.symm.eq_nil
  constructor
  · dsimp only
    simp only [ne_eq, List.map_eq_nil_iff]
    exact hsne
  · dsimp only
    rw [List.map_map]
    rw [show ((fun e : RoomEntry => e.price_per_night) ∘ mkRoomEntry tm)
      = (fun r : Room => toFloat r.price_per_night) from rfl]
    refine congrArg round2 (minQ_perm (hperm.map _) ?_).symm
    simp only [ne_eq, List.map_eq_nil_iff]
    exact hsne

lemma search_hotels_ok_shape (today : Date) (dist : ℚ → ℚ → ℚ → ℚ → ℚ) (db : Db)
    (a : SearchArgs) (p : SearchPayload)
    (hok : search_hotels today dist db a = .ok p) :
    p.hotels = [] ∨ ∃ props tm rooms,
      p.hotels = sortByLe (hotelLe (a.lat.isSome && a.lng.isSome))
        (buildHotels props tm rooms) := by
  unfold search_hotels at hok
  split at hok
  · exact absurd hok (by simp)
  · injection hok with h
    rw [← h]
    unfold search_hotels_pipeline
    dsimp only
    by_cases hemp : (propertyStage dist a.nPropertyName a.nCity a.nCountry
        a.lat a.lng a.radius_km db.properties).isEmpty = true
    · rw [if_pos hemp]
      exact Or.inl rfl
    · rw [if_neg hemp]
      exact Or.inr ⟨_, _, _, rfl⟩

/-- C4 (amended): in every successful `search_hotels` result,
`min_price_per_night` of a hotel is the rounded minimum over the rooms that
survived ALL stages including the free-text query stage — the hotel's own
`matching_rooms` — not over the pre-query stage-3–5 set the claim describes. -/
theorem c4_min_price_post_query (today : Date) (dist : ℚ → ℚ → ℚ → ℚ → ℚ)
    (db : Db) (a : SearchArgs) (p : SearchPayload)
    (hok : search_hotels today dist db a = .ok p) :
    ∀ h ∈ p.hotels, h.matching_rooms ≠ [] ∧
      h.min_price_per_night
        = round2 (minQ (h.matching_rooms.map (fun e => e.price_per_night))) := by
  intro h hmem
  rcases search_hotels_ok_shape today dist db a p hok with hnil | ⟨props, tm, rooms, hshape⟩
  · rw [hnil] at hmem
    cases hmem
  · rw [hshape] at hmem
    exact hotel_min_price_of_mem props tm rooms h
      ((perm_sortByLe (hotelLe _) (buildHotels props tm rooms)).mem_iff.mp hmem)

def c4r1 : Room :=
  ⟨"r1", "p1", "Plain Room", "standard", some "basic lodging", .num 50, some 2,
    none, "active", none⟩

def c4r2 : Room :=
  ⟨"r2", "p1", "Spa Suite", "suite", some "suite with spa", .num 100, some 2,
    none, "active", none⟩

def c4prop : PropertyRow :=
  ⟨"p1", "Alpha Lodge", some "Lviv", some "Ukraine", none, none, some "quiet stay"⟩

def c4Db : Db := ⟨[c4prop], [c4r1, c4r2], [], [], [], [], 0⟩

def c4Args : SearchArgs :=
  ⟨"Spa", none, none, none, none, none, none, 20, none, none, none, none, none, none⟩

unseal Rat.add Rat.mul Rat.inv Rat.sub Nat.gcd in
/-- C4 (counterexample): with query `"Spa"`, both rooms survive stages 3–5
(`[c4r1, c4r2]`, minimum price 50), but the result's only hotel reports
`min_price_per_night = 100` — the minimum over the post-query set, not over
the claimed pre-query grouping base. -/
theorem c4_counterexample :
    (match search_hotels ⟨2026,10,12⟩ (fun _ _ _ _ => 0) c4Db c4Args with
      | .ok p => p.hotels.map (fun h => h.min_price_per_night)
      | .error _ => []) = [100] ∧
    (roomsAfterStages c4Db c4Args (propertyStage (fun _ _ _ _ => 0) c4Args.nPropertyName
        c4Args.nCity c4Args.nCountry c4Args.lat c4Args.lng c4Args.radius_km
        c4Db.properties)).1 = [c4r1, c4r2] ∧
    round2 (minQ ([c4r1, c4r2].map (fun r => toFloat r.price_per_night))) = 50 ∧
    (100 : ℚ) ≠ 50 :=
  ⟨by decide, by decide, by decide, by decide⟩

def c4Payload : SearchPayload :=
  ⟨[⟨"p1", "Alpha Lodge", some "Lviv", some "Ukraine", none, none, none, 100, 1, false,
      [⟨"r2", "p1", "Spa Suite", "suite", "suite with spa", 100, 2, [], none⟩]⟩],
    1, 1, "Found 1 hotel(s) with 1 matching room(s)."⟩

def c4Hotel : Hotel :=
  ⟨"p1", "Alpha Lodge", some "Lviv", some "Ukraine", none, none, none, 100, 1, false,
    [⟨"r2", "p1", "Spa Suite", "suite", "suite with spa", 100, 2, [], none⟩]⟩

unseal Rat.add Rat.mul Rat.inv Rat.sub Nat.gcd in
/-- C4 witness: the amended theorem applied to the concrete search run. -/
theorem c4_witness :
    search_hotels ⟨2026,10,12⟩ (fun _ _ _ _ => 0) c4Db c4Args = .ok c4Payload ∧
    c4Hotel ∈ c4Payload.hotels ∧
    (c4Hotel.matching_rooms ≠ [] ∧
      c4Hotel.min_price_per_night
        = round2 (minQ (c4Hotel.matching_rooms.map (fun e => e.price_per_night)))) :=
  ⟨by decide, by decide,
    c4_min_price_post_query ⟨2026,10,12⟩ (fun _ _ _ _ => 0) c4Db c4Args c4Payload
      (by decide) c4Hotel (by decide)⟩

def c3Args : SearchArgs :=
  ⟨"", none, none, none, none, none, none, 20, none, none, none, none, none, some 500⟩

unseal Rat.add Rat.mul Rat.inv Rat.sub Nat.gcd in
/-- C3 (counterexample): `search_hotels(budget_total_max=500)` with no other
argument fails the earlier at-least-one-criterion check, so it returns the
criteria-required error, not the claimed budget/dates error. -/
theorem c3_counterexample :
    search_hotels ⟨2026,10,12⟩ (fun _ _ _ _ => 0) ⟨[], [], [], [], [], [], 0⟩ c3Args
      = .error "At least one search criterion is required: query, property_name, city, country, room_name, or lat/lng." ∧
    SearchResult.error "At least one search criterion is required: query, property_name, city, country, room_name, or lat/lng."
      ≠ .error "budget_total_max requires both check_in and check_out dates." :=
  ⟨by decide, by decide⟩

/-- C3 (amended): whenever some primary criterion is present (and the earlier
checks pass: coordinates paired, positive radius, both dates absent, guests
valid or absent, positive-or-absent per-night budget) and a positive
`budget_total_max` is supplied without dates, `search_hotels` returns exactly
the structured error `budget_total_max requires both check_in and check_out
dates.` — for every data store. -/
theorem c3_budget_total_requires_dates (today : Date)
    (dist : ℚ → ℚ → ℚ → ℚ → ℚ) (db : Db) (a : SearchArgs) (v : ℚ)
    (hpair : a.lat.isSome = a.lng.isSome) (hrad : 0 < a.radius_km)
    (hcrit : a.nQuery ≠ "" ∨ a.nPropertyName ≠ "" ∨ a.nCity ≠ "" ∨ a.nCountry ≠ ""
      ∨ a.nRoomName ≠ "" ∨ (a.lat.isSome ∧ a.lng.isSome))
    (hci : strTruthy a.check_in = false) (hco : strTruthy a.check_out = false)
    (hguests : ∀ g, a.guests = some g → validate_guests g = none)
    (hbpn : ∀ b, a.budget_per_night_max = some b → 0 < b)
    (hbtm : a.budget_total_max = some v) (hv : 0 < v) :
    search_hotels today dist db a
      = .error "budget_total_max requires both check_in and check_out dates." := by
  unfold search_hotels search_hotels_validate
  rw [if_neg (by simp [hpair])]
  rw [if_neg (by simp; linarith)]
  rw [if_neg ?hcrit]
  case hcrit =>
    simp only [Bool.not_eq_true]
    simp only [Bool.not_or, Bool.not_not]
    rcases hcrit with h | h | h | h | h | h
    · simp [beq_eq_false_iff_ne.mpr h]
    · simp [beq_eq_false_iff_ne.mpr h]
    · simp [beq_eq_false_iff_ne.mpr h]
    · simp [beq_eq_false_iff_ne.mpr h]
    · simp [beq_eq_false_iff_ne.mpr h]
    · simp [h.1, h.2]
  rw [if_neg (by simp [hci, hco])]
  rw [show (if strTruthy a.check_in && strTruthy a.check_out then
      validate_dates today (a.check_in.getD "") (a.check_out.getD "") else none) = none
    from by simp [hci]]
  rw [show (match a.guests with | none => none | some g => validate_guests g) = none
    from ?hg]
  case hg =>
    cases hg : a.guests with
    | none => rfl
    | some g => exact hguests g hg
  rw [if_neg ?hbpn]
  case hbpn =>
    cases hb : a.budget_per_night_max with
    | none => simp
    | some b =>
      have := hbpn b hb
      simp
      linarith
  rw [if_neg (by rw [hbtm]; simp; linarith)]
  rw [if_pos (by rw [hbtm]; simp [hci])]

/-- C3 witness: the amended theorem applied to `city="Kyiv"`,
`budget_total_max=500`, no dates. -/
theorem c3_witness :
    search_hotels ⟨2026,10,12⟩ (fun _ _ _ _ => 0) ⟨[], [], [], [], [], [], 0⟩
      ⟨"", none, some "Kyiv", none, none, none, none, 20, none, none, none, none, none, some 500⟩
      = .error "budget_total_max requires both check_in and check_out dates." :=
  c3_budget_total_requires_dates ⟨2026,10,12⟩ (fun _ _ _ _ => 0) ⟨[], [], [], [], [], [], 0⟩
    ⟨"", none, some "Kyiv", none, none, none, none, 20, none, none, none, none, none, some 500⟩
    500 (by decide) (by decide)
    (Or.inr (Or.inr (Or.inl (by decide))))
    (by decide) (by decide)
    (fun g hg => by cases hg)
    (fun b hb => by cases hb)
    rfl (by decide)

/-! ## Single-property search (`search_rooms` in `tools.py`) -/

/-- One row returned by the semantic-search oracle (only the fields
`search_rooms` reads). -/
structure SemanticResult where
  source_type : String
  source_id : String
deriving DecidableEq, Repr

/-- The guest-capacity filter of `search_rooms`: skipped for falsy `guests`
(`None` or `0`), and defaulting a missing `max_guests` to 2. -/
def searchRoomsGuestFilter (guests : Option ℤ) (rooms : List Room) : List Room :=
  match guests with
  | none => rooms
  | some g =>
    if g == 0 then rooms
    else rooms.filter (fun r => r.max_guests.getD 2 ≥ g)

/-- Result payload of `search_rooms` (room rows projected as records;
`message` is only set on the empty-property path). -/
structure RoomsSearchPayload where
  property_id : String
  rooms : List Room
  count : ℕ
  message : Option String
deriving DecidableEq, Repr

/-- `search_rooms(...)`: semantic candidates (with all-active fallback),
guest-capacity filter, then per-room availability filter.  `results` is the
semantic-search oracle's answer; dates reach the store as ISO strings and are
modelled by their parse. -/
def search_rooms (results : List SemanticResult) (db : Db) (property_id : String)
    (check_in check_out : Option String) (guests : Option ℤ) : RoomsSearchPayload :=
  let room_ids := (results.filter (fun r => r.source_type == "room")).map
    (fun r => r.source_id)
  let room_ids := if room_ids.isEmpty then
      (db.rooms.filter (fun r => r.property_id == property_id && r.status == "active")).map
        (fun r => r.id)
    else room_ids
  if room_ids.isEmpty then ⟨property_id, [], 0, some "No rooms found for this property."⟩
  else
    let rooms := db.rooms.filter (fun r => room_ids.contains r.id && r.status == "active")
    let rooms := searchRoomsGuestFilter guests rooms
    let rooms := match (if strTruthy check_in && strTruthy check_out then
        match parseIsoDate (check_in.getD ""), parseIsoDate (check_out.getD "") with
        | some ci, some co => some (ci, co)
        | _, _ => none
      else none) with
      | some (ci, co) =>
        rooms.filter (fun r => (conflictingBookings db.bookings [r.id] ci co).isEmpty)
      | none => rooms
    ⟨property_id, rooms, rooms.length, none⟩

/-- C10: a room row with no `max_guests` field is excluded by
`search_hotels`' guest filter (missing defaults to 0) for every
`guests ≥ 1`, but kept by `search_rooms`' guest filter (missing defaults
to 2) whenever `guests ≤ 2`. -/
theorem c10_missing_max_guests (r : Room) (hmg : r.max_guests = none)
    (rooms : List Room) (hmem : r ∈ rooms) (g : ℤ) :
    (1 ≤ g → r ∉ guestsStageHotels (some g) rooms) ∧
    (g ≤ 2 → r ∈ searchRoomsGuestFilter (some g) rooms) := by
  constructor
  · intro hg habs
    have := (List.mem_filter.mp habs).2
    rw [hmg] at this
    simp only [Option.getD_none] at this
    rw [decide_eq_true_iff] at this
    omega
  · intro hg
    unfold searchRoomsGuestFilter
    dsimp only
    by_cases h0 : (g == 0) = true
    · rw [if_pos h0]
      exact hmem
    · rw [if_neg h0]
      rw [List.mem_filter]
      refine ⟨hmem, ?_⟩
      rw [hmg]
      simp only [Option.getD_none]
      rw [decide_eq_true_iff]
      omega

/-- C10 witness: the theorem applied to a concrete room with no
`max_guests`, singleton room list, `guests = 2`. -/
theorem c10_witness :
    ((⟨"r9", "p1", "Loft", "room", none, .num 70, none, none, "active", none⟩ : Room)
        ∈ [(⟨"r9", "p1", "Loft", "room", none, .num 70, none, none, "active", none⟩ : Room)]) ∧
    ((1 ≤ (2:ℤ) →
      (⟨"r9", "p1", "Loft", "room", none, .num 70, none, none, "active", none⟩ : Room)
        ∉ guestsStageHotels (some 2)
          [⟨"r9", "p1", "Loft", "room", none, .num 70, none, none, "active", none⟩]) ∧
    ((2:ℤ) ≤ 2 →
      (⟨"r9", "p1", "Loft", "room", none, .num 70, none, none, "active", none⟩ : Room)
        ∈ searchRoomsGuestFilter (some 2)
          [⟨"r9", "p1", "Loft", "room", none, .num 70, none, none, "active", none⟩])) :=
  ⟨by decide,
    c10_missing_max_guests
      ⟨"r9", "p1", "Loft", "room", none, .num 70, none, none, "active", none⟩ rfl
      [⟨"r9", "p1", "Loft", "room", none, .num 70, none, none, "active", none⟩]
      (by decide) 2⟩

lemma round2_zero : round2 0 = 0 := by
  norm_num [round2, roundHalfEven, Int.fract]

/-- C9: a room whose `price_per_night` is missing or unparseable is coerced
to `0.0` by `_to_float` (total functions, never an exception), so it passes
every positive `budget_per_night_max` filter, is reported with
`price_per_night = 0.0`, and with no tiers and no overrides contributes `0`
per night — its stay total is `0`. -/
theorem c9_unparseable_price (v : PyVal) (hbad : pyFloat v = none)
    (room : Room) (hprice : room.price_per_night = v)
    (rooms : List Room) (hmem : room ∈ rooms) (b : ℚ) (hb : 0 < b)
    (tm : List (String × ℚ)) (guests : Option ℤ) (ci co : Date) :
    toFloat v = 0 ∧
    room ∈ budgetNightStage (some b) rooms ∧
    (mkRoomEntry tm room).price_per_night = 0 ∧
    calcRoomTotalPrice room guests ci co [] [] = 0 := by
  have h0 : toFloat v = 0 := by
    unfold toFloat
    rw [hbad]
    rfl
  refine ⟨h0, ?_, ?_, ?_⟩
  · unfold budgetNightStage
    rw [List.mem_filter]
    refine ⟨hmem, ?_⟩
    rw [hprice, decide_eq_true_iff, h0]
    exact le_of_lt hb
  · unfold mkRoomEntry
    dsimp only
    rw [hprice]
    exact h0
  · rw [calc_no_tiers_eq]
    unfold nightsSubtotal
    rw [hprice, h0, mul_zero]
    simp [zero_mul, round2_zero]

/-- C9 witness: the theorem applied to a room whose price is the unparseable
string `"n/a"`. -/
theorem c9_witness :
    pyFloat (.str "n/a") = none ∧
    (toFloat (.str "n/a") = 0 ∧
      (⟨"rx", "p1", "Attic", "room", none, .str "n/a", some 2, none, "active", none⟩ : Room)
        ∈ budgetNightStage (some 100)
          [⟨"rx", "p1", "Attic", "room", none, .str "n/a", some 2, none, "active", none⟩] ∧
      (mkRoomEntry []
        ⟨"rx", "p1", "Attic", "room", none, .str "n/a", some 2, none, "active", none⟩).price_per_night = 0 ∧
      calcRoomTotalPrice
        ⟨"rx", "p1", "Attic", "room", none, .str "n/a", some 2, none, "active", none⟩
        none ⟨2026,3,1⟩ ⟨2026,3,4⟩ [] [] = 0) :=
  ⟨by decide,
    c9_unparseable_price (.str "n/a") (by decide)
      ⟨"rx", "p1", "Attic", "room", none, .str "n/a", some 2, none, "active", none⟩ rfl
      [⟨"rx", "p1", "Attic", "room", none, .str "n/a", some 2, none, "active", none⟩]
      (by decide) 100 (by norm_num) [] none ⟨2026,3,1⟩ ⟨2026,3,4⟩⟩

/-! ## Booking Creation Workflow (`calculate_price`, `tool_create_booking`) -/

/-- Outcome of a Python call: normal value, structured `{error: msg}` result,
or an uncaught exception. -/
inductive PyResult (α : Type) where
  | ok (a : α)
  | err (msg : String)
  | exn
deriving DecidableEq, Repr

/-- Result payload of `calculate_price`. -/
structure PricePayload where
  room_id : String
  room_name : String
  nights : ℤ
  nightly_rate : ℚ
  subtotal : ℚ
  taxes : ℚ
  service_fee : ℚ
  total : ℚ
  currency : String
deriving DecidableEq, Repr

/-- `.eq("id", room_id).single()`: the matching room, `None` when absent. -/
def findRoom (rooms : List Room) (rid : String) : Option Room :=
  (rooms.filter (fun r => r.id == rid)).head?

/-- The inline tier scan of `calculate_price`
(`if t["min_guests"] <= guests <= t["max_guests"]`): direct indexing raises
(`exn`) on a missing field; `float` raises on a non-numeric price; Python's
chained comparison only touches `max_guests` when `min_guests <= guests`. -/
def tierScanStrict (g : ℤ) : List GuestTier → PyResult (Option ℚ)
  | [] => .ok none
  | t :: rest =>
    match t.min_guests with
    | none => .exn
    | some lo =>
      if lo ≤ g then
        match t.max_guests with
        | none => .exn
        | some hi =>
          if g ≤ hi then
            match pyFloat t.price_per_night with
            | some p => .ok (some p)
            | none => .exn
          else tierScanStrict g rest
      else tierScanStrict g rest

/-- The inline override map of `calculate_price`
(`{r["date"]: float(r["price"]) ...}`): `float` raises on a bad price. -/
def buildOverrideMapStrict : List DateOverride → PyResult (List (String × ℚ))
  | [] => .ok []
  | o :: rest =>
    match pyFloat o.price with
    | none => .exn
    | some p =>
      match buildOverrideMapStrict rest with
      | .ok m => .ok ((o.date.iso, p) :: m)
      | .err e => .err e
      | .exn => .exn

/-- `calculate_price(client, property_id, room_id, check_in, check_out,
guests)`.  The first, dead summation loop of the source is overwritten by the
second loop and is not modelled; only the second loop's result is returned. -/
def calculate_price (today : Date) (db : Db) (room_id : String)
    (check_in check_out : String) (guests : ℤ) : PyResult PricePayload :=
  match validate_dates today check_in check_out with
  | some e => .err e
  | none =>
    match validate_guests guests with
    | some e => .err e
    | none =>
      match findRoom db.rooms room_id with
      | none => .err "Room not found"
      | some room =>
        match pyFloat room.price_per_night with
        | none => .exn
        | some base_price =>
          match tierScanStrict guests (tiersForRoom db.guest_tiers room_id) with
          | .exn => .exn
          | .err e => .err e
          | .ok tier_price =>
            let nightly_price := tier_price.getD base_price
            match parseIsoDate check_in, parseIsoDate check_out with
            | some ci, some co =>
              match buildOverrideMapStrict
                  (overridesForRoomRange db.date_overrides room_id ci co) with
              | .exn => .exn
              | .err e => .err e
              | .ok override_map =>
                let nights := dateDiff co ci
                let total := sumNights override_map nightly_price ci nights.toNat
                let taxes := round2 (total * (12/100))
                let service_fee := round2 (total * (4/100))
                .ok ⟨room_id, room.name, nights, nightly_price, total, taxes,
                  service_fee, round2 (total + taxes + service_fee), "USD"⟩
            | _, _ => .exn

/-- `get_or_create_guest(client, property_id, name, email)`: lookup by
property and exact name (plus email when truthy), else insert. -/
def get_or_create_guest (db : Db) (property_id name : String)
    (email : Option String) : String × Db :=
  let email' : Option String :=
    match email with
    | some e => if e == "" then none else some e
    | none => none
  let q : List GuestRow :=
    db.guests.filter (fun g => g.property_id == property_id && g.name == name)
  let q2 : List GuestRow := match email' with
    | some e => q.filter (fun g => g.email == some e)
    | none => q
  match q2.head? with
  | some g => (g.id, db)
  | none =>
    let gid := "guest" ++ toString db.next_id
    let db2 : Db := { db with
      guests := db.guests ++ [⟨gid, property_id, name, email'⟩]
      next_id := db.next_id + 1 }
    (gid, db2)

/-- Result payload of `tool_create_booking`. -/
structure BookingPayload where
  booking_id : String
  status : String
  guest_name : String
  room_id : String
  check_in : String
  check_out : String
  nights : ℤ
  total : ℚ
  currency : String
deriving DecidableEq, Repr

/-- `tool_create_booking(...)`: validate → availability check → price →
guest upsert → booking insert.  Returns the payload (or error/exception) and
the updated store.  Audit logging is modelled separately; the
session-to-guest link and the inserted row's currency resolution touch no
relation the core reads back and are projected away.  The generated booking
id is a fresh `"bk" ++ counter` string. -/
def tool_create_booking (today : Date) (db : Db) (property_id room_id : String)
    (guest_name : String) (guest_email : Option String)
    (check_in check_out : String) (guests : ℤ) (booking_status : String) :
    PyResult BookingPayload × Db :=
  match validate_dates today check_in check_out with
  | some e => (.err e, db)
  | none =>
    match validate_guests guests with
    | some e => (.err e, db)
    | none =>
      if !(check_availability today db.bookings room_id check_in check_out).available then
        (.err "Room is not available for the selected dates.", db)
      else
        match calculate_price today db room_id check_in check_out guests with
        | .err e => (.err e, db)
        | .exn => (.exn, db)
        | .ok pricing =>
          let gd := get_or_create_guest db property_id guest_name guest_email
          match parseIsoDate check_in, parseIsoDate check_out with
          | some ci, some co =>
            let booking_id := "bk" ++ toString gd.2.next_id
            let db2 : Db := { gd.2 with
              bookings := gd.2.bookings
                ++ [⟨room_id, property_id, ci, co, booking_status, pricing.total⟩]
              next_id := gd.2.next_id + 1 }
            (.ok ⟨booking_id, booking_status, guest_name, room_id, check_in, check_out,
                pricing.nights, pricing.total, "USD"⟩, db2)
          | _, _ => (.exn, gd.2)

lemma tier_scan_equiv (g : ℤ) (base : ℚ) (tiers : List GuestTier)
    (hwf : ∀ t ∈ tiers, t.min_guests.isSome ∧ t.max_guests.isSome
      ∧ (pyFloat t.price_per_night).isSome) :
    ∃ tp, tierScanStrict g tiers = .ok tp ∧
      tp.getD base = tierScanDefaulted base g tiers := by
  induction tiers with
  | nil => exact ⟨none, rfl, rfl⟩
  | cons t rest ih =>
    obtain ⟨hlo, hhi, hpr⟩ := hwf t (List.mem_cons_self t rest)
    obtain ⟨lo, hlo'⟩ := Option.isSome_iff_exists.mp hlo
    obtain ⟨hi, hhi'⟩ := Option.isSome_iff_exists.mp hhi
    obtain ⟨p, hp'⟩ := Option.isSome_iff_exists.mp hpr
    obtain ⟨tp, hts, htp⟩ := ih (fun t ht => hwf t (List.mem_cons_of_mem _ ht))
    unfold tierScanStrict tierScanDefaulted
    rw [hlo', hhi', hp']
    dsimp only [Option.getD_some]
    by_cases h1 : lo ≤ g
    · rw [if_pos h1]
      by_cases h2 : g ≤ hi
      · rw [if_pos h2, if_pos ⟨h1, h2⟩]
        exact ⟨some p, rfl, by
          dsimp only [Option.getD_some]
          unfold toFloat
          rw [hp']
          rfl⟩
      · rw [if_neg h2, if_neg (by rintro ⟨_, h⟩; exact h2 h)]
        exact ⟨tp, hts, htp⟩
    · rw [if_neg h1, if_neg (by rintro ⟨h, _⟩; exact h1 h)]
      exact ⟨tp, hts, htp⟩

lemma override_map_equiv (ovs : List DateOverride)
    (hwf : ∀ o ∈ ovs, (pyFloat o.price).isSome) :
    buildOverrideMapStrict ovs = .ok (buildOverrideMap ovs) := by
  induction ovs with
  | nil => rfl
  | cons o rest ih =>
    obtain ⟨p, hp⟩ := Option.isSome_iff_exists.mp (hwf o (List.mem_cons_self o rest))
    unfold buildOverrideMapStrict buildOverrideMap
    rw [hp, ih (fun o ho => hwf o (List.mem_cons_of_mem _ ho))]
    dsimp only [List.map_cons]
    rw [show toFloat o.price = p from by unfold toFloat; rw [hp]; rfl]
    rfl

lemma calculate_price_total (today : Date) (db : Db) (room_id : String)
    (check_in check_out : String) (g : ℤ) (room : Room) (d1 d2 : Date)
    (hv : validate_dates today check_in check_out = none)
    (hg : validate_guests g = none)
    (hp1 : parseIsoDate check_in = some d1) (hp2 : parseIsoDate check_out = some d2)
    (hroom : findRoom db.rooms room_id = some room)
    (hbase : (pyFloat room.price_per_night).isSome = true)
    (htiers : ∀ t ∈ tiersForRoom db.guest_tiers room_id,
      t.min_guests.isSome ∧ t.max_guests.isSome ∧ (pyFloat t.price_per_night).isSome)
    (hovs : ∀ o ∈ overridesForRoomRange db.date_overrides room_id d1 d2,
      (pyFloat o.price).isSome) :
    ∃ payload, calculate_price today db room_id check_in check_out g = .ok payload ∧
      payload.total = calcRoomTotalPrice room (some g) d1 d2
        (tiersForRoom db.guest_tiers room_id)
        (overridesForRoomRange db.date_overrides room_id d1 d2) := by
  obtain ⟨base, hbase'⟩ := Option.isSome_iff_exists.mp hbase
  obtain ⟨tp, hts, htp⟩ := tier_scan_equiv g base (tiersForRoom db.guest_tiers room_id) htiers
  have hom := override_map_equiv _ hovs
  have hbase2 : toFloat room.price_per_night = base := by
    unfold toFloat
    rw [hbase']
    rfl
  have hnr : nightly_rate_for_guests room (some g) (tiersForRoom db.guest_tiers room_id)
      = tp.getD base := by
    unfold nightly_rate_for_guests
    rw [hbase2, htp]
  refine ⟨⟨room_id, room.name, dateDiff d2 d1, tp.getD base,
    sumNights (buildOverrideMap (overridesForRoomRange db.date_overrides room_id d1 d2))
      (tp.getD base) d1 (dateDiff d2 d1).toNat,
    round2 (sumNights (buildOverrideMap (overridesForRoomRange db.date_overrides room_id d1 d2))
      (tp.getD base) d1 (dateDiff d2 d1).toNat * (12/100)),
    round2 (sumNights (buildOverrideMap (overridesForRoomRange db.date_overrides room_id d1 d2))
      (tp.getD base) d1 (dateDiff d2 d1).toNat * (4/100)),
    round2 (sumNights (buildOverrideMap (overridesForRoomRange db.date_overrides room_id d1 d2))
        (tp.getD base) d1 (dateDiff d2 d1).toNat
      + round2 (sumNights (buildOverrideMap (overridesForRoomRange db.date_overrides room_id d1 d2))
          (tp.getD base) d1 (dateDiff d2 d1).toNat * (12/100))
      + round2 (sumNights (buildOverrideMap (overridesForRoomRange db.date_overrides room_id d1 d2))
          (tp.getD base) d1 (dateDiff d2 d1).toNat * (4/100))),
    "USD"⟩, ?_, ?_⟩
  · simp only [calculate_price, hv, hg, hroom, hbase', hts, hp1, hp2, hom]
  · unfold calcRoomTotalPrice
    dsimp only
    rw [hnr]
    unfold TAX_RATE SERVICE_FEE_RATE
    rfl

lemma get_or_create_guest_bookings (db : Db) (p n : String) (e : Option String) :
    (get_or_create_guest db p n e).2.bookings = db.bookings := by
  unfold get_or_create_guest
  dsimp only
  split <;> rfl

lemma get_or_create_guest_tiers (db : Db) (p n : String) (e : Option String) :
    (get_or_create_guest db p n e).2.guest_tiers = db.guest_tiers := by
  unfold get_or_create_guest
  dsimp only
  split <;> rfl

/-- C5 (amended): for valid inputs, an existing room with well-formed numeric
pricing rows, and no conflicting booking, `tool_create_booking` succeeds with
`status` equal to the caller-specified `booking_status` and `total` equal to
the §4.2 engine's `_calculate_room_total_price` on the same room, guests,
dates, tiers and overrides (the inline pricing of `calculate_price` is
equivalent to the engine on well-formed inputs); and — provided the first
call's `booking_status` is not `"cancelled"` — a second sequential call for
the same room with overlapping valid dates returns the unavailable-room
error. -/
theorem c5_create_booking_sequential (today : Date) (db : Db)
    (property_id room_id guest_name : String) (guest_email : Option String)
    (check_in check_out : String) (g : ℤ) (booking_status : String)
    (room : Room) (d1 d2 : Date)
    (property_id2 guest_name2 : String) (guest_email2 : Option String)
    (check_in2 check_out2 : String) (g2 : ℤ) (booking_status2 : String)
    (d1' d2' : Date)
    (hv : validate_dates today check_in check_out = none)
    (hg : validate_guests g = none)
    (hp1 : parseIsoDate check_in = some d1) (hp2 : parseIsoDate check_out = some d2)
    (hroom : findRoom db.rooms room_id = some room)
    (hbase : (pyFloat room.price_per_night).isSome = true)
    (htiers : ∀ t ∈ tiersForRoom db.guest_tiers room_id,
      t.min_guests.isSome ∧ t.max_guests.isSome ∧ (pyFloat t.price_per_night).isSome)
    (hovs : ∀ o ∈ overridesForRoomRange db.date_overrides room_id d1 d2,
      (pyFloat o.price).isSome)
    (havail : ¬ ∃ b ∈ db.bookings, b.room_id = room_id ∧ b.status ≠ "cancelled" ∧
      b.check_in.toOrd < d2.toOrd ∧ b.check_out.toOrd > d1.toOrd)
    (hstatus : booking_status ≠ "cancelled")
    (hv2 : validate_dates today check_in2 check_out2 = none)
    (hg2 : validate_guests g2 = none)
    (hp1' : parseIsoDate check_in2 = some d1') (hp2' : parseIsoDate check_out2 = some d2')
    (hov1 : d1.toOrd < d2'.toOrd) (hov2 : d2.toOrd > d1'.toOrd) :
    ∃ payload db',
      tool_create_booking today db property_id room_id guest_name guest_email
        check_in check_out g booking_status = (.ok payload, db') ∧
      payload.status = booking_status ∧
      payload.total = calcRoomTotalPrice room (some g) d1 d2
        (tiersForRoom db.guest_tiers room_id)
        (overridesForRoomRange db.date_overrides room_id d1 d2) ∧
      (tool_create_booking today db' property_id2 room_id guest_name2 guest_email2
        check_in2 check_out2 g2 booking_status2).1
        = .err "Room is not available for the selected dates." := by
  obtain ⟨pricing, hcp, htotal⟩ := calculate_price_total today db room_id check_in
    check_out g room d1 d2 hv hg hp1 hp2 hroom hbase htiers hovs
  have havail1 : (check_availability today db.bookings room_id
      check_in check_out).available = true := by
    cases hb : (check_availability today db.bookings room_id check_in check_out).available
    · exact absurd ((check_availability_valid today db.bookings room_id check_in
        check_out d1 d2 hv hp1 hp2).mp hb) havail
    · rfl
  simp only [tool_create_booking, hv, hg, havail1, Bool.not_true, hcp, hp1, hp2]
  rw [if_neg Bool.false_ne_true]
  refine ⟨_, _, rfl, rfl, htotal, ?_⟩
  have hav2 : (check_availability today
      ((get_or_create_guest db property_id guest_name guest_email).2.bookings
        ++ [⟨room_id, property_id, d1, d2, booking_status, pricing.total⟩])
      room_id check_in2 check_out2).available = false :=
    (check_availability_valid today _ room_id check_in2 check_out2 d1' d2'
      hv2 hp1' hp2').mpr
      ⟨⟨room_id, property_id, d1, d2, booking_status, pricing.total⟩,
        List.mem_append_right _ (List.mem_cons_self _ _), rfl, hstatus, hov1, hov2⟩
  simp only [tool_create_booking, hv2, hg2]
  dsimp only
  rw [hav2]
  rfl

def c5Room : Room := ⟨"r1", "p1", "Suite", "suite", none, .num 80, some 4, none, "active", none⟩

def c5Db : Db := ⟨[], [c5Room], [], [], [], [], 0⟩

def c5Db1 : Db := ⟨[], [c5Room], [], [],
  [⟨"r1", "p1", ⟨2026,11,1⟩, ⟨2026,11,5⟩, "cancelled", 1856/5⟩],
  [⟨"guest0", "p1", "Ann", none⟩], 2⟩

unseal Rat.add Rat.mul Rat.inv Rat.sub Nat.gcd in
/-- C5 (counterexample): with caller-specified `booking_status = "cancelled"`
(a valid input, and one of the spec's booking statuses), the first call
succeeds but does not block the room, so the immediately following call for
the same room and the same dates succeeds instead of returning the
unavailable-room error — refuting the claim's unconditional second-call
clause. -/
theorem c5_counterexample :
    tool_create_booking ⟨2026,10,12⟩ c5Db "p1" "r1" "Ann" none
      "2026-11-01" "2026-11-05" 2 "cancelled"
      = (.ok ⟨"bk1", "cancelled", "Ann", "r1", "2026-11-01", "2026-11-05", 4,
          1856/5, "USD"⟩, c5Db1) ∧
    (tool_create_booking ⟨2026,10,12⟩ c5Db1 "p1" "r1" "Bob" none
      "2026-11-01" "2026-11-05" 2 "cancelled").1
      = .ok ⟨"bk3", "cancelled", "Bob", "r1", "2026-11-01", "2026-11-05", 4,
          1856/5, "USD"⟩ ∧
    PyResult.ok (⟨"bk3", "cancelled", "Bob", "r1", "2026-11-01", "2026-11-05", 4,
        1856/5, "USD"⟩ : BookingPayload)
      ≠ .err "Room is not available for the selected dates." :=
  ⟨by decide, by decide, by decide⟩

unseal Rat.add Rat.mul Rat.inv Rat.sub Nat.gcd in
/-- C5 witness: the amended theorem applied to a `"confirmed"` booking and an
overlapping second request. -/
theorem c5_witness :
    ∃ payload db',
      tool_create_booking ⟨2026,10,12⟩ c5Db "p1" "r1" "Ann" none
        "2026-11-01" "2026-11-05" 2 "confirmed" = (.ok payload, db') ∧
      payload.status = "confirmed" ∧
      payload.total = calcRoomTotalPrice c5Room (some 2) ⟨2026,11,1⟩ ⟨2026,11,5⟩
        (tiersForRoom c5Db.guest_tiers "r1")
        (overridesForRoomRange c5Db.date_overrides "r1" ⟨2026,11,1⟩ ⟨2026,11,5⟩) ∧
      (tool_create_booking ⟨2026,10,12⟩ db' "p1" "r1" "Bob" none
        "2026-11-03" "2026-11-07" 2 "ai_pending").1
        = .err "Room is not available for the selected dates." :=
  c5_create_booking_sequential ⟨2026,10,12⟩ c5Db "p1" "r1" "Ann" none
    "2026-11-01" "2026-11-05" 2 "confirmed" c5Room ⟨2026,11,1⟩ ⟨2026,11,5⟩
    "p1" "Bob" none "2026-11-03" "2026-11-07" 2 "ai_pending" ⟨2026,11,3⟩ ⟨2026,11,7⟩
    (by decide) (by decide) (by decide) (by decide) (by decide) (by decide)
    (by decide) (by decide) (by decide) (by decide) (by decide) (by decide)
    (by decide) (by decide) (by decide) (by decide)

/-! ## Audit logging (`log_tool_call` in `tools.py`) -/

/-- A row of the `audit_log` relation (as passed to the insert). -/
structure AuditEntry where
  property_id : String
  conversation_id : Option String
  source : String
  tool_name : String
  description : String
  status : String
deriving DecidableEq, Repr

/-- `log_tool_call`: the audit insert runs inside `try/except Exception`;
a raising insert (`Except.error`) is logged and swallowed, so the call always
returns unit. -/
def log_tool_call (insertAttempt : Except String Unit) : Unit :=
  match insertAttempt with
  | .ok _ => ()
  | .error _ => ()

/-- `search_hotels` followed by its per-hotel audit writes; the audit sink
may succeed or raise on each entry. -/
def search_hotels_with_audit (today : Date) (dist : ℚ → ℚ → ℚ → ℚ → ℚ) (db : Db)
    (a : SearchArgs) (sink : AuditEntry → Except String Unit) :
    SearchResult × List Unit :=
  let res := search_hotels today dist db a
  (res, match res with
    | .error _ => []
    | .ok p => p.hotels.map (fun h => log_tool_call (sink
        ⟨h.property_id, none, "widget", "search_hotels",
          "Cross-property hotel search", "success"⟩)))

/-- `tool_create_booking` followed by its success-path audit write. -/
def tool_create_booking_with_audit (today : Date) (db : Db)
    (property_id room_id guest_name : String) (guest_email : Option String)
    (check_in check_out : String) (g : ℤ) (booking_status : String)
    (sink : AuditEntry → Except String Unit) :
    (PyResult BookingPayload × Db) × Unit :=
  let res := tool_create_booking today db property_id room_id guest_name guest_email
    check_in check_out g booking_status
  (res, match res.1 with
    | .ok _ => log_tool_call (sink ⟨property_id, none, "widget", "create_booking",
        "Created booking for " ++ guest_name, "success"⟩)
    | .err _ => ()
    | .exn => ())

/-- C7: audit-sink failures never propagate and never change the primary
result: `log_tool_call` swallows a raising insert, and the payloads of
`search_hotels` and `tool_create_booking` are identical under any two audit
sinks — in particular identical to the pure functions without auditing. -/
theorem c7_audit_never_propagates (today : Date) (dist : ℚ → ℚ → ℚ → ℚ → ℚ)
    (db : Db) (a : SearchArgs)
    (property_id room_id guest_name : String) (guest_email : Option String)
    (check_in check_out : String) (g : ℤ) (booking_status : String)
    (sink1 sink2 : AuditEntry → Except String Unit) (e : String) :
    log_tool_call (.error e) = () ∧
    (search_hotels_with_audit today dist db a sink1).1
      = search_hotels today dist db a ∧
    (search_hotels_with_audit today dist db a sink1).1
      = (search_hotels_with_audit today dist db a sink2).1 ∧
    (tool_create_booking_with_audit today db property_id room_id guest_name
      guest_email check_in check_out g booking_status sink1).1
      = tool_create_booking today db property_id room_id guest_name
          guest_email check_in check_out g booking_status ∧
    (tool_create_booking_with_audit today db property_id room_id guest_name
      guest_email check_in check_out g booking_status sink1).1
      = (tool_create_booking_with_audit today db property_id room_id guest_name
          guest_email check_in check_out g booking_status sink2).1 :=
  ⟨rfl, rfl, rfl, rfl, rfl⟩
